import Mathlib

/-!
Verification of the InvokeAI canvas entity transform engine
(`CanvasEntityTransformer.ts`) against its design specification.

The TypeScript source operates on JavaScript numbers.  We embed the
arithmetic over exact rationals (`ℚ`): `Math.round`, `Math.sign`,
`Math.abs`, `Math.min`/`Math.max`, the `%` remainder and division all
have exact rational counterparts, defined below.  Every rational is
finite, so `Number.isFinite` is the constant `true` in this embedding.
-/

namespace InvokeAI

/-- JavaScript `Math.round`: nearest integer, ties toward positive infinity. -/
def jround (q : ℚ) : ℤ := ⌊q + 1 / 2⌋

/-- JavaScript truncation toward zero (the rounding used by the `%` operator). -/
def jtrunc (q : ℚ) : ℤ := if 0 ≤ q then ⌊q⌋ else ⌈q⌉

/-- JavaScript remainder `a % b` (sign follows the dividend), for `b ≠ 0`. -/
def jmod (a b : ℚ) : ℚ := a - b * jtrunc (a / b)

/-- JavaScript `Math.sign` on rationals. -/
def jsign (q : ℚ) : ℚ := if 0 < q then 1 else if q < 0 then -1 else 0

/-- A 2D point (`Coordinate` in the source). -/
structure Coordinate where
  x : ℚ
  y : ℚ
deriving DecidableEq, Repr

/-- An axis-aligned rectangle (`Rect` in the source). -/
structure Rect where
  x : ℚ
  y : ℚ
  width : ℚ
  height : ℚ
deriving DecidableEq, Repr

/-- Modelled from the spec: `getEmptyRect` (from `konva/util`, not in the
provided sources) returns the all-zero rectangle. -/
def getEmptyRect : Rect := ⟨0, 0, 0, 0⟩

/-- Modelled from the spec: `roundToMultiple` (from
`common/util/roundDownToMultiple`, not in the provided sources) is the grid
snap `round(value / gridSize) * gridSize` described in the spec. -/
def roundToMultiple (num multiple : ℚ) : ℚ := (jround (num / multiple) : ℚ) * multiple

/-- Modelled from the library interface: `clamp(value, lower, upper)` from
`es-toolkit/compat` is `min(max(value, lower), upper)`. -/
def clamp (value lower upper : ℚ) : ℚ := min (max value lower) upper

/-! ### Grid snapping (`snapWarpAnchor`, `anchorDragBoundFunc`) -/

/-- `snapWarpAnchor`: pan-compensated grid snap applied to warp anchors.
`gridSize` is the positional grid size, `stageScale`/`stagePos` the stage
transform.  Mirrors the source: unscale, snap to the grid, add back the
stage offset modulo `scale * gridSize`. -/
def snapWarpAnchor (gridSize stageScale stagePosX stagePosY : ℚ) (pos : Coordinate) :
    Coordinate :=
  if gridSize ≤ 1 then pos
  else
    let targetX := roundToMultiple (pos.x / stageScale) gridSize
    let targetY := roundToMultiple (pos.y / stageScale) gridSize
    let scaledOffsetX := jmod stagePosX (stageScale * gridSize)
    let scaledOffsetY := jmod stagePosY (stageScale * gridSize)
    ⟨targetX * stageScale + scaledOffsetX, targetY * stageScale + scaledOffsetY⟩

/-! ### Proxy-rect pixel snapping (`snapProxyRectToPixelGrid`) -/

/-- The affine proxy rectangle: the authoritative placement of the entity
during an interactive transform. -/
structure ProxyRect where
  x : ℚ
  y : ℚ
  width : ℚ
  height : ℚ
  scaleX : ℚ
  scaleY : ℚ
  rotation : ℚ
deriving DecidableEq, Repr

/-- `snapProxyRectToPixelGrid`: on transform end, snap the position to the
nearest pixel and convert the accumulated scale into an exact scale
reproducing an integer target size (at least 1 pixel), keeping each
scale's sign. -/
def snapProxyRectToPixelGrid (r : ProxyRect) : ProxyRect :=
  let snappedX : ℚ := jround r.x
  let snappedY : ℚ := jround r.y
  let targetWidth : ℚ := max ((|jround (r.width * r.scaleX)| : ℤ) : ℚ) 1
  let targetHeight : ℚ := max ((|jround (r.height * r.scaleY)| : ℤ) : ℚ) 1
  let snappedScaleX := targetWidth / r.width * jsign r.scaleX
  let snappedScaleY := targetHeight / r.height * jsign r.scaleY
  { r with
    x := snappedX
    y := snappedY
    scaleX := snappedScaleX
    scaleY := snappedScaleY }

/-! ### Fit-to-bbox strategies (`fitToBboxContain`, `fitToBboxCover`) -/

/-- The attributes written to the proxy rect by the fit operations. -/
structure FitResult where
  x : ℚ
  y : ℚ
  scaleX : ℚ
  scaleY : ℚ
  rotation : ℚ
deriving DecidableEq, Repr

/-- Inputs of the fit operations: the transform-enabled flag, the target
bbox rectangle, the positional grid size and the proxy rect dimensions. -/
structure FitInput where
  isTransformEnabled : Bool
  rect : Rect
  gridSize : ℚ
  width : ℚ
  height : ℚ

/-- `fitToBboxContain`: uniform scale `min(scaleX, scaleY)`, centered,
rounded to the grid and clamped into the target.  Returns `none` when the
transform is not enabled (the source logs a warning and no-ops). -/
def fitToBboxContain (inp : FitInput) : Option FitResult :=
  if !inp.isTransformEnabled then none
  else
    let scaleX := inp.rect.width / inp.width
    let scaleY := inp.rect.height / inp.height
    let scale := min scaleX scaleY
    let scaledWidth := inp.width * scale
    let scaledHeight := inp.height * scale
    let centerX := inp.rect.x + (inp.rect.width - scaledWidth) / 2
    let centerY := inp.rect.y + (inp.rect.height - scaledHeight) / 2
    let roundedX := if 1 < inp.gridSize then roundToMultiple centerX inp.gridSize else centerX
    let roundedY := if 1 < inp.gridSize then roundToMultiple centerY inp.gridSize else centerY
    let x := clamp roundedX inp.rect.x (inp.rect.x + inp.rect.width - scaledWidth)
    let y := clamp roundedY inp.rect.y (inp.rect.y + inp.rect.height - scaledHeight)
    some ⟨x, y, scale, scale, 0⟩

/-- `fitToBboxCover`: uniform scale `max(scaleX, scaleY)`; each axis is
centered (and grid-rounded) only when it overflows the target.  Returns
`none` when the transform is not enabled. -/
def fitToBboxCover (inp : FitInput) : Option FitResult :=
  if !inp.isTransformEnabled then none
  else
    let scaleX := inp.rect.width / inp.width
    let scaleY := inp.rect.height / inp.height
    let scale := max scaleX scaleY
    let scaledWidth := inp.width * scale
    let scaledHeight := inp.height * scale
    let x :=
      if inp.rect.width < scaledWidth then
        let centerX := inp.rect.x + (inp.rect.width - scaledWidth) / 2
        if 1 < inp.gridSize then roundToMultiple centerX inp.gridSize else centerX
      else inp.rect.x
    let y :=
      if inp.rect.height < scaledHeight then
        let centerY := inp.rect.y + (inp.rect.height - scaledHeight) / 2
        if 1 < inp.gridSize then roundToMultiple centerY inp.gridSize else centerY
      else inp.rect.y
    some ⟨x, y, scale, scale, 0⟩

/-! ### Interaction state machine (`syncInteractionState`) -/

/-- The tools relevant to `syncInteractionState`: `move`, `view`, and any
other tool. -/
inductive Tool where
  | move
  | view
  | other
deriving DecidableEq, Repr, Fintype

/-- The transformer's interaction mode. -/
inductive InteractionMode where
  | all
  | drag
  | off
deriving DecidableEq, Repr

/-- The reactive inputs read by `syncInteractionState`. -/
structure SyncInput where
  isStaging : Bool
  isSegmenting : Bool
  isFiltering : Bool
  globalTransforming : Bool
  selfTransforming : Bool
  isPendingRectCalculation : Bool
  pixelWidthZero : Bool
  pixelHeightZero : Bool
  isSelected : Bool
  isEmpty : Bool
  isLocked : Bool
  tool : Tool

/-- `syncInteractionState`, translated branch by branch from the source:
the first matching condition decides the interaction mode. -/
def syncInteractionState (s : SyncInput) : InteractionMode :=
  if s.isStaging then .off
  else if s.isSegmenting then .off
  else if s.isFiltering then .off
  else if s.globalTransforming && !s.selfTransforming then .off
  else if s.isPendingRectCalculation || s.pixelWidthZero || s.pixelHeightZero then .off
  else if !s.isSelected then .off
  else if s.isEmpty then .off
  else if s.isLocked then .off
  else if !s.selfTransforming && s.tool = Tool.move then .drag
  else if s.selfTransforming then (if s.tool = Tool.view then .off else .all)
  else .off

/-- The spec's strict priority chain, written from the spec's words: global
busy > conflicting segmentation/filter operation > another entity
mid-transform > bbox pending or entity empty > not selected > locked >
tool-dependent default. -/
def specInteractionMode (s : SyncInput) : InteractionMode :=
  if s.isStaging then .off
  else if s.isSegmenting || s.isFiltering then .off
  else if s.globalTransforming && !s.selfTransforming then .off
  else if s.isPendingRectCalculation || s.pixelWidthZero || s.pixelHeightZero || s.isEmpty then
    .off
  else if !s.isSelected then .off
  else if s.isLocked then .off
  else if !s.selfTransforming && s.tool = Tool.move then .drag
  else if s.selfTransforming then (if s.tool = Tool.view then .off else .all)
  else .off

/-! ### Transform lifecycle (`startTransform`, `applyTransform`, `updateBbox`) -/

/-- The transform mode of a session. -/
inductive TransformMode where
  | affine
  | warp
deriving DecidableEq, Repr

/-- The global and per-entity state mutated by `startTransform`:
the globally transforming adapter pointer, the mutex, the per-entity
transforming flag, the transform mode and the silent flag. -/
structure TransformGlobalState where
  transformingAdapter : Option ℕ
  mutexLocked : Bool
  isTransforming : Bool
  transformMode : TransformMode
  silentTransform : Bool
deriving DecidableEq, Repr

/-- `startTransform`: asserts that no other entity is the globally
transforming adapter (returning the offending adapter id in the second
component and leaving the state untouched when the assertion fires), then
acquires the mutex and initialises the session state. -/
def startTransform (s : TransformGlobalState) (selfId : ℕ) (silent : Bool) :
    TransformGlobalState × Option ℕ :=
  match s.transformingAdapter with
  | some other => (s, some other)
  | none =>
      ({ transformingAdapter := some selfId
         mutexLocked := true
         isTransforming := true
         transformMode := TransformMode.affine
         silentTransform := silent }, none)

/-- Observable effects of `applyTransform`. -/
inductive TransformEffect where
  | warnLog
  | warpRasterize
  | rasterize
  | requestRectCalculation
  | stopTransform
deriving DecidableEq, Repr

/-- The per-entity state read and written by `applyTransform`. -/
structure ApplyState where
  isTransforming : Bool
  isProcessing : Bool
  transformMode : TransformMode
deriving DecidableEq, Repr

/-- `applyTransform`: warns and no-ops when no transform is in progress;
otherwise sets the processing flag, rasterizes (warp or affine), requests
a rect calculation and delegates to `stopTransform`. -/
def applyTransform (s : ApplyState) : ApplyState × List TransformEffect :=
  if !s.isTransforming then (s, [.warnLog])
  else
    let s1 := { s with isProcessing := true }
    if s.transformMode = TransformMode.warp then
      (s1, [.warpRasterize, .requestRectCalculation, .stopTransform])
    else
      (s1, [.rasterize, .requestRectCalculation, .stopTransform])

/-- The state read by `updateBbox` when deciding whether to reset the
entity. -/
structure UpdateBboxInput where
  isPendingRectCalculation : Bool
  pixelWidthZero : Bool
  pixelHeightZero : Bool
  isTransforming : Bool
  isProcessing : Bool
  hasObjects : Bool

/-- Whether `updateBbox` calls `resetEntity`, translated branch by branch
from the source: a pending calculation returns early; a zero-size pixel
rect resets the entity only outside transform/processing and only when the
renderer has objects. -/
def updateBboxResetsEntity (s : UpdateBboxInput) : Bool :=
  if s.isPendingRectCalculation then false
  else if s.pixelWidthZero || s.pixelHeightZero then
    if !s.isTransforming && !s.isProcessing then s.hasObjects else false
  else false

/-! ### Bounding-box calculation (`calculateRect`) -/

/-- The worker's bbox response: pixel-index extents of the non-transparent
region (`{minX, minY, maxX, maxY}`). -/
structure BboxExtents where
  minX : ℕ
  minY : ℕ
  maxX : ℕ
  maxY : ℕ
deriving DecidableEq, Repr

/-- The inputs of one `calculateRect` pass: whether `getCanvas` succeeded,
whether the renderer has objects, whether a pixel-accurate bbox is needed,
the client rect of the object group, and the worker's response (`none` is
the worker-failure/blank-canvas case). -/
structure CalcRectInput where
  getCanvasOk : Bool
  hasObjects : Bool
  needsPixelBbox : Bool
  rect : Rect
  workerExtents : Option BboxExtents

/-- Modelled from the spec: `getCanvas` (adapter code not in the provided
sources) rasterizes the entity's content area into an off-context bitmap;
its integer width rounds the node rect's width. -/
def canvasBitmapWidth (r : Rect) : ℕ := (jround r.width).toNat

/-- Modelled from the spec: integer height of the rasterized bitmap. -/
def canvasBitmapHeight (r : Rect) : ℕ := (jround r.height).toNat

/-- `calculateRect`, translated exit path by exit path from the source.
Returns the pair (node rect, pixel rect). -/
def calculateRect (inp : CalcRectInput) : Rect × Rect :=
  if !inp.getCanvasOk then (getEmptyRect, getEmptyRect)
  else if !inp.hasObjects then (getEmptyRect, getEmptyRect)
  else if !inp.needsPixelBbox then (inp.rect, inp.rect)
  else
    match inp.workerExtents with
    | some e =>
        (inp.rect,
          ⟨(jround inp.rect.x : ℚ) + e.minX, (jround inp.rect.y : ℚ) + e.minY,
            (e.maxX : ℚ) - e.minX, (e.maxY : ℚ) - e.minY⟩)
    | none =>
        (inp.rect,
          ⟨(jround inp.rect.x : ℚ), (jround inp.rect.y : ℚ),
            (jround inp.rect.width : ℚ), (jround inp.rect.height : ℚ)⟩)

/-- Modelled from the spec: the worker scans the bitmap for the minimal
rectangle enclosing all pixels with positive alpha, so a non-null response
has extents inside the bitmap. -/
def workerContract (inp : CalcRectInput) : Bool :=
  match inp.workerExtents with
  | none => true
  | some e =>
      decide (e.minX ≤ e.maxX) && decide (e.maxX < canvasBitmapWidth inp.rect) &&
      decide (e.minY ≤ e.maxY) && decide (e.maxY < canvasBitmapHeight inp.rect)

/-- Whether `calculateRect` takes the worker-failure fallback exit path. -/
def onWorkerFallbackPath (inp : CalcRectInput) : Bool :=
  inp.getCanvasOk && inp.hasObjects && inp.needsPixelBbox && inp.workerExtents.isNone

/-! ### The homography solver (`computeHomography`, `solveLinearSystem`)

The source represents the augmented system as an array of rows and indexes
it with `M[i]?.[j] ?? 0`; we mirror this with `List (List ℚ)` and `getD`
with default `0` (`[]` for a missing row).  Row-mutating loops become
index-aware maps. -/

/-- Indexed map over a list; the numeric argument is the index of the first
element. -/
def mapIdxFrom {α : Type} (f : ℕ → α → α) : ℕ → List α → List α
  | _, [] => []
  | k, a :: as => f k a :: mapIdxFrom f (k + 1) as

/-- `M[i]?.[j] ?? 0`: entry of the matrix, `0` out of range. -/
def entry (M : List (List ℚ)) (i j : ℕ) : ℚ := (M.getD i []).getD j 0

/-- `M[i] ?? []`: a row of the matrix. -/
def getRow (M : List (List ℚ)) (i : ℕ) : List ℚ := M.getD i []

/-- `M[i] = row`: replace the `i`-th row. -/
def setRow (M : List (List ℚ)) (i : ℕ) (row : List ℚ) : List (List ℚ) :=
  mapIdxFrom (fun r old => if r = i then row else old) 0 M

/-- The pivot-search loop of `solveLinearSystem`: scan rows `row`, `row+1`,
… (`fuel` of them), carrying the best `(pivotRow, maxVal)` so far and
replacing it on a strictly larger absolute value. -/
def findPivotGo (M : List (List ℚ)) (col : ℕ) : ℕ → ℕ → ℕ × ℚ → ℕ × ℚ
  | _, 0, best => best
  | row, fuel + 1, best =>
      let v := |entry M row col|
      findPivotGo M col (row + 1) fuel (if best.2 < v then (row, v) else best)

/-- Partial pivoting for column `col`: start from row `col` and scan rows
`col+1 … n-1`. -/
def findPivot (M : List (List ℚ)) (col n : ℕ) : ℕ × ℚ :=
  findPivotGo M col (col + 1) (n - (col + 1)) (col, |entry M col col|)

/-- The in-place scaling loop `for (c = col; c <= n; c++) row[c] /= pivot`;
rows have length `n + 1`, so the map over all indices `c ≥ col` is the same
loop. -/
def scaleRowFrom (col : ℕ) (pivot : ℚ) (row : List ℚ) : List ℚ :=
  mapIdxFrom (fun c v => if col ≤ c then v / pivot else v) 0 row

/-- The row-elimination loop: subtract `factor` times the (scaled) pivot
row from `row`, for columns `c ≥ col`. -/
def elimRowFrom (col : ℕ) (colData : List ℚ) (row : List ℚ) : List ℚ :=
  let factor := row.getD col 0
  mapIdxFrom (fun c v => if col ≤ c then v - factor * colData.getD c 0 else v) 0 row

/-- The row swap `tmp = M[col]; M[col] = M[pivotRow]; M[pivotRow] = tmp`,
performed only when the pivot row differs from the current column. -/
def swapStep (M : List (List ℚ)) (col pivotRow : ℕ) : List (List ℚ) :=
  if pivotRow ≠ col then setRow (setRow M col (getRow M pivotRow)) pivotRow (getRow M col)
  else M

/-- One column of the Gauss-Jordan elimination in `solveLinearSystem`:
partial pivoting (`none` on an exactly-zero pivot, where the source
returns the all-zero vector), row swap, pivot-row normalization, and
elimination in every other row. -/
def eliminateStep (M : List (List ℚ)) (col n : ℕ) : Option (List (List ℚ)) :=
  let p := findPivot M col n
  let pivotRow := p.1
  if p.2 = 0 then none
  else
    let M1 := swapStep M col pivotRow
    let colData := getRow M1 col
    let pivot := colData.getD col 0
    let colData' := scaleRowFrom col pivot colData
    let M2 := setRow M1 col colData'
    some (mapIdxFrom (fun r row => if r = col then row else elimRowFrom col colData' row) 0 M2)

/-- The outer column loop of `solveLinearSystem`, columns `col`,
`col + 1`, … (`fuel` of them). -/
def gaussJordanGo (n : ℕ) : ℕ → ℕ → List (List ℚ) → Option (List (List ℚ))
  | 0, _, M => some M
  | fuel + 1, col, M => (eliminateStep M col n).bind (gaussJordanGo n fuel (col + 1))

/-- Full elimination over columns `0 … n - 1` of the augmented matrix. -/
def gaussJordan (M : List (List ℚ)) (n : ℕ) : Option (List (List ℚ)) :=
  gaussJordanGo n n 0 M

/-- `A.map((row, i) => [...row, b[i]])`: the augmented matrix. -/
def augmentRows (A : List (List ℚ)) (b : List ℚ) : List (List ℚ) :=
  mapIdxFrom (fun i row => row ++ [b.getD i 0]) 0 A

/-- `solveLinearSystem(A, b)`: Gauss-Jordan elimination with partial
pivoting; the all-zero vector on a zero pivot, otherwise the last column
of the reduced matrix. -/
def solveLinearSystem (A : List (List ℚ)) (b : List ℚ) : List ℚ :=
  let n := b.length
  match gaussJordan (augmentRows A b) n with
  | none => List.replicate n 0
  | some Mf => Mf.map fun row => row.getD n 0

/-- The two rows contributed by one point correspondence `(s, d)` to the
homography system. -/
def homographyRows (s d : Coordinate) : List (List ℚ) :=
  [[s.x, s.y, 1, 0, 0, 0, -d.x * s.x, -d.x * s.y],
   [0, 0, 0, s.x, s.y, 1, -d.y * s.x, -d.y * s.y]]

/-- The linear system `(A, b)` built by `computeHomography` from the
correspondences (rows pushed in source order). -/
def homographySystem (src dst : List Coordinate) : List (List ℚ) × List ℚ :=
  let pairs := src.zip dst
  (pairs.flatMap fun p => homographyRows p.1 p.2,
   pairs.flatMap fun p => [p.2.x, p.2.y])

/-- `computeHomography`: the all-zero vector when fewer than 4
correspondences (or mismatched lengths) are supplied, otherwise the
solution of the 8-parameter direct linear system. -/
def computeHomography (src dst : List Coordinate) : List ℚ :=
  if src.length ≠ dst.length ∨ src.length < 4 then List.replicate 8 0
  else
    let sys := homographySystem src dst
    solveLinearSystem sys.1 sys.2

/-- `applyHomography`: projective mapping, `{0, 0}` on an exactly-zero
denominator. -/
def applyHomography (h : List ℚ) (p : Coordinate) : Coordinate :=
  let h11 := h.getD 0 0
  let h12 := h.getD 1 0
  let h13 := h.getD 2 0
  let h21 := h.getD 3 0
  let h22 := h.getD 4 0
  let h23 := h.getD 5 0
  let h31 := h.getD 6 0
  let h32 := h.getD 7 0
  let denom := h31 * p.x + h32 * p.y + 1
  if denom = 0 then ⟨0, 0⟩
  else ⟨(h11 * p.x + h12 * p.y + h13) / denom, (h21 * p.x + h22 * p.y + h23) / denom⟩

/-- `isValidHomography`: 8 finite coefficients.  Over exact rationals
every value is finite, so only the length check remains. -/
def isValidHomography (h : List ℚ) : Bool := h.length = 8

/-- The projective denominator of `h` at `p`. -/
def homographyDenomAt (h : List ℚ) (p : Coordinate) : ℚ :=
  h.getD 6 0 * p.x + h.getD 7 0 * p.y + 1

/-- Whether the elimination completes with no zero pivot (the claim's
notion of a non-degenerate correspondence set). -/
def solveSucceeds (A : List (List ℚ)) (b : List ℚ) : Bool :=
  (gaussJordan (augmentRows A b) b.length).isSome

/-- Non-degeneracy of the correspondence set: the 8×8 system built from it
is solvable with no zero pivot. -/
def homographyNonDegenerate (src dst : List Coordinate) : Bool :=
  decide (src.length = dst.length) && decide (4 ≤ src.length) &&
    solveSucceeds (homographySystem src dst).1 (homographySystem src dst).2

/-! ### Warp resampling plan (`getWarpedCanvas`, `drawWarpTriangle`) -/

/-- The four warp corners. -/
structure WarpCorners where
  tl : Coordinate
  tr : Coordinate
  br : Coordinate
  bl : Coordinate
deriving DecidableEq, Repr

/-- Resampling quality. -/
inductive WarpQuality where
  | preview
  | final
deriving DecidableEq, Repr

/-- `getWarpSegments`: grid resolution for the piecewise resampler
(`max(4, ceil(maxDim / targetSize))`). -/
def getWarpSegments (width height : ℚ) (quality : WarpQuality) : ℕ :=
  let targetSize : ℚ := if quality = WarpQuality.preview then 128 else 64
  max 4 (⌈max width height / targetSize⌉).toNat

/-- One call to `drawWarpTriangle`: the three source corners and the three
projectively-warped destination corners of a grid triangle. -/
structure TriangleDraw where
  s0 : Coordinate
  s1 : Coordinate
  s2 : Coordinate
  d0 : Coordinate
  d1 : Coordinate
  d2 : Coordinate
deriving DecidableEq, Repr

/-- What `getWarpedCanvas` draws onto the destination canvas: either the
whole source image stretched into the bounding box (the degenerate
fallback) or the list of per-cell triangle draws. -/
inductive WarpDrawPlan where
  | stretch (canvasWidth canvasHeight : ℕ)
  | triangles (ts : List TriangleDraw)
deriving DecidableEq, Repr

/-- The source-grid triangle pairs drawn by the resampling loops of
`getWarpedCanvas`, two triangles per grid cell. -/
def warpGridTriangles (srcW srcH : ℚ) (h : List ℚ) (segments : ℕ) : List TriangleDraw :=
  let stepX := srcW / segments
  let stepY := srcH / segments
  (List.range segments).flatMap fun y =>
    (List.range segments).flatMap fun x =>
      let x0 := (x : ℚ) * stepX
      let x1 := ((x : ℚ) + 1) * stepX
      let y0 := (y : ℚ) * stepY
      let y1 := ((y : ℚ) + 1) * stepY
      let p00 : Coordinate := ⟨x0, y0⟩
      let p10 : Coordinate := ⟨x1, y0⟩
      let p11 : Coordinate := ⟨x1, y1⟩
      let p01 : Coordinate := ⟨x0, y1⟩
      let d00 := applyHomography h p00
      let d10 := applyHomography h p10
      let d11 := applyHomography h p11
      let d01 := applyHomography h p01
      [⟨p00, p10, p11, d00, d10, d11⟩, ⟨p00, p11, p01, d00, d11, d01⟩]

/-- `getWarpedCanvas`, as the drawing plan it performs: compute the
homography from the source bitmap corners to the warped corners (relative
to the corners' bounding box); if it is not a valid homography, stretch
the whole source image into the destination canvas; otherwise draw the
subdivision triangles. -/
def getWarpedCanvas (srcW srcH : ℕ) (corners : WarpCorners) (quality : WarpQuality) :
    WarpDrawPlan :=
  let minX := min (min corners.tl.x corners.tr.x) (min corners.br.x corners.bl.x)
  let maxX := max (max corners.tl.x corners.tr.x) (max corners.br.x corners.bl.x)
  let minY := min (min corners.tl.y corners.tr.y) (min corners.br.y corners.bl.y)
  let maxY := max (max corners.tl.y corners.tr.y) (max corners.br.y corners.bl.y)
  let rect : Rect := ⟨minX, minY, maxX - minX, maxY - minY⟩
  let canvasWidth : ℕ := max 1 (⌈rect.width⌉).toNat
  let canvasHeight : ℕ := max 1 (⌈rect.height⌉).toNat
  let srcPts : List Coordinate := [⟨0, 0⟩, ⟨srcW, 0⟩, ⟨srcW, srcH⟩, ⟨0, srcH⟩]
  let dstPts : List Coordinate :=
    [⟨corners.tl.x - rect.x, corners.tl.y - rect.y⟩,
     ⟨corners.tr.x - rect.x, corners.tr.y - rect.y⟩,
     ⟨corners.br.x - rect.x, corners.br.y - rect.y⟩,
     ⟨corners.bl.x - rect.x, corners.bl.y - rect.y⟩]
  let h := computeHomography srcPts dstPts
  if !isValidHomography h then WarpDrawPlan.stretch canvasWidth canvasHeight
  else
    let segments := getWarpSegments (srcW : ℚ) (srcH : ℚ) quality
    WarpDrawPlan.triangles (warpGridTriangles (srcW : ℚ) (srcH : ℚ) h segments)

/-- Whether `drawWarpTriangle` draws nothing for this triangle because the
source triangle is degenerate (`denom === 0` makes it return before
drawing). -/
def srcTriangleDegenerate (t : TriangleDraw) : Bool :=
  decide (t.s0.x * (t.s1.y - t.s2.y) + t.s1.x * (t.s2.y - t.s0.y) +
    t.s2.x * (t.s0.y - t.s1.y) = 0)

/-- Whether the destination triangle has collapsed to a single point.  In
`drawWarpTriangle` the clip path is the pad-expanded destination triangle,
and the expansion fixes every vertex of a point triangle (its `len === 0`
branch returns the vertex unchanged), so such a draw clips to a single
point and paints nothing. -/
def dstTriangleIsPoint (t : TriangleDraw) : Bool :=
  decide (t.d0 = t.d1) && decide (t.d1 = t.d2)

/-- A plan paints nothing when it draws triangles and every one of them is
skipped (degenerate source triangle) or clipped to a single point.  The
stretch fallback always paints the source image. -/
def drawPlanPaintsNothing : WarpDrawPlan → Bool
  | WarpDrawPlan.stretch _ _ => false
  | WarpDrawPlan.triangles ts =>
      ts.all fun t => srcTriangleDegenerate t || dstTriangleIsPoint t

/-- Whether the plan took the degenerate whole-image-stretch fallback. -/
def isStretchFallback : WarpDrawPlan → Bool
  | WarpDrawPlan.stretch _ _ => true
  | WarpDrawPlan.triangles _ => false

/-! ### Proof-layer notions for the solver -/

/-- Row `i` of the augmented matrix, read as a linear equation, holds of
the assignment `x`. -/
def rowEq (n : ℕ) (M : List (List ℚ)) (i : ℕ) (x : ℕ → ℚ) : Prop :=
  (∑ j in Finset.range n, entry M i j * x j) = entry M i n

/-- The assignment `x` satisfies every row of the augmented system. -/
def satisfiesSystem (n : ℕ) (M : List (List ℚ)) (x : ℕ → ℚ) : Prop :=
  ∀ i < n, rowEq n M i x

/-- Columns `0 … k - 1` of the matrix agree with the identity. -/
def idCols (n k : ℕ) (M : List (List ℚ)) : Prop :=
  ∀ i < n, ∀ j < k, entry M i j = if i = j then 1 else 0

/-- The augmented matrix has `n` rows of length `n + 1`. -/
def wellShaped (n : ℕ) (M : List (List ℚ)) : Prop :=
  M.length = n ∧ ∀ i < n, (getRow M i).length = n + 1

/-- The index permutation performed by the row swap. -/
def swapIdx (col pr i : ℕ) : ℕ := if i = col then pr else if i = pr then col else i

/-! ## Basic list lemmas -/

theorem getD_len_le {α : Type} (l : List α) (d : α) {i : ℕ} (h : l.length ≤ i) :
    l.getD i d = d := by
  induction l generalizing i with
  | nil => cases i <;> rfl
  | cons a as ih =>
      cases i with
      | zero => simp at h
      | succ k => simpa using ih (Nat.le_of_succ_le_succ (by simpa using h))

theorem length_mapIdxFrom {α : Type} (f : ℕ → α → α) (k : ℕ) (l : List α) :
    (mapIdxFrom f k l).length = l.length := by
  induction l generalizing k with
  | nil => rfl
  | cons a as ih => simp [mapIdxFrom, ih]

theorem getD_mapIdxFrom {α : Type} (f : ℕ → α → α) (k : ℕ) (l : List α) (i : ℕ) (d : α) :
    (mapIdxFrom f k l).getD i d = if i < l.length then f (k + i) (l.getD i d) else d := by
  induction l generalizing k i with
  | nil => simp [mapIdxFrom, getD_len_le]
  | cons a as ih =>
      cases i with
      | zero => simp [mapIdxFrom]
      | succ m =>
          simp only [mapIdxFrom, List.getD_cons_succ, ih (k + 1) m, List.length_cons]
          have harith : k + 1 + m = k + (m + 1) := by omega
          by_cases hm : m < as.length
          · simp [hm, Nat.succ_lt_succ hm, harith]
          · simp [hm, fun h => hm (Nat.lt_of_succ_lt_succ h)]

theorem getD_append_single {α : Type} (l : List α) (c : α) (j : ℕ) (d : α) :
    (l ++ [c]).getD j d = if j < l.length then l.getD j d else if j = l.length then c else d := by
  induction l generalizing j with
  | nil => cases j <;> simp [getD_len_le]
  | cons a as ih =>
      cases j with
      | zero => simp
      | succ m =>
          simp only [List.cons_append, List.getD_cons_succ, ih m, List.length_cons]
          by_cases hm : m < as.length
          · simp [hm, Nat.succ_lt_succ hm]
          · by_cases he : m = as.length
            · simp [hm, he]
            · simp [hm, he, fun h => hm (Nat.lt_of_succ_lt_succ h),
                fun h => he (Nat.succ_injective h)]

theorem getD_map_of_lt {α β : Type} (f : α → β) (l : List α) {i : ℕ} (h : i < l.length)
    (d : β) (d' : α) : (l.map f).getD i d = f (l.getD i d') := by
  induction l generalizing i with
  | nil => simp at h
  | cons a as ih =>
      cases i with
      | zero => simp
      | succ m => simpa using ih (by simpa using h)

/-! ## C4, C8, C9, C10: lifecycle and interaction-state theorems -/

/-- C4: the interaction mode computed by `syncInteractionState` equals the
evaluation of the spec's strict priority chain (busy, then conflicting
segmentation/filter, then another entity mid-transform, then bbox pending
or entity empty, then not selected, then locked, then the tool-dependent
default), first match winning. -/
theorem syncInteractionState_matches_spec_chain :
    ∀ (a b c d e f g h i j k : Bool) (t : Tool),
      syncInteractionState ⟨a, b, c, d, e, f, g, h, i, j, k, t⟩ =
        specInteractionMode ⟨a, b, c, d, e, f, g, h, i, j, k, t⟩ := by
  decide

/-- C8: `startTransform` invoked while another entity is the globally
transforming adapter fails the hard assertion before acquiring the mutex
or mutating anything: the state comes back unchanged together with the
offending adapter id. -/
theorem startTransform_fails_fast (s : TransformGlobalState) (selfId : ℕ) (silent : Bool)
    (other : ℕ) (h : s.transformingAdapter = some other) :
    startTransform s selfId silent = (s, some other) := by
  simp [startTransform, h]

/-- Witness for C8 at a concrete state. -/
theorem startTransform_fails_fast_witness :
    startTransform ⟨some 1, true, true, TransformMode.affine, false⟩ 2 false =
      (⟨some 1, true, true, TransformMode.affine, false⟩, some 1) :=
  startTransform_fails_fast ⟨some 1, true, true, TransformMode.affine, false⟩ 2 false 1 rfl

/-- C10: `applyTransform` while the transforming flag is false only warns:
no rasterization, no rect recalculation, no `stopTransform`, and the state
is returned unchanged. -/
theorem applyTransform_noop_when_not_transforming (s : ApplyState)
    (h : s.isTransforming = false) :
    applyTransform s = (s, [TransformEffect.warnLog]) := by
  simp [applyTransform, h]

/-- Witness for C10 at a concrete state. -/
theorem applyTransform_noop_when_not_transforming_witness :
    applyTransform ⟨false, false, TransformMode.warp⟩ =
      (⟨false, false, TransformMode.warp⟩, [TransformEffect.warnLog]) :=
  applyTransform_noop_when_not_transforming ⟨false, false, TransformMode.warp⟩ rfl

/-- C9: on a zero-size pixel rect, `updateBbox` resets the entity exactly
when no rect calculation is pending, the entity has objects, and neither
the transforming flag nor the processing flag is set; in particular it
never resets while transforming or processing. -/
theorem updateBbox_reset_guarded :
    ∀ (pending zw zh tr pr ho : Bool),
      (updateBboxResetsEntity ⟨pending, zw, zh, tr, pr, ho⟩ = true ↔
        (pending = false ∧ (zw = true ∨ zh = true) ∧ tr = false ∧ pr = false ∧
          ho = true)) ∧
      (tr = true ∨ pr = true → updateBboxResetsEntity ⟨pending, zw, zh, tr, pr, ho⟩ = false) := by
  decide

/-! ## C5: proxy-rect pixel snapping -/

theorem abs_jsign_of_ne {q : ℚ} (h : q ≠ 0) : |jsign q| = 1 := by
  rcases lt_trichotomy q 0 with hq | hq | hq
  · simp [jsign, not_lt.mpr hq.le, hq]
  · exact absurd hq h
  · simp [jsign, hq]

theorem jsign_mul_pos {a : ℚ} (ha : 0 < a) (q : ℚ) : jsign (a * q) = jsign q := by
  rcases lt_trichotomy q 0 with hq | hq | hq
  · have h1 : a * q < 0 := mul_neg_of_pos_of_neg ha hq
    simp [jsign, hq, h1, not_lt.mpr h1.le, not_lt.mpr hq.le]
  · simp [jsign, hq]
  · have h1 : 0 < a * q := mul_pos ha hq
    simp [jsign, hq, h1]

/-- C5: for a proxy rect with positive width/height and nonzero scales,
`snapProxyRectToPixelGrid` rounds the position to the nearest integer
pixel and produces scales whose magnitude realises the integer target
size `max(|round(dim · scale)|, 1)` exactly, preserving each scale's
sign. -/
theorem snapProxyRectToPixelGrid_exact (r : ProxyRect)
    (hw : 0 < r.width) (hh : 0 < r.height) (hsx : r.scaleX ≠ 0) (hsy : r.scaleY ≠ 0) :
    (snapProxyRectToPixelGrid r).x = (jround r.x : ℚ) ∧
    (snapProxyRectToPixelGrid r).y = (jround r.y : ℚ) ∧
    r.width * |(snapProxyRectToPixelGrid r).scaleX| =
      max ((|jround (r.width * r.scaleX)| : ℤ) : ℚ) 1 ∧
    r.height * |(snapProxyRectToPixelGrid r).scaleY| =
      max ((|jround (r.height * r.scaleY)| : ℤ) : ℚ) 1 ∧
    jsign (snapProxyRectToPixelGrid r).scaleX = jsign r.scaleX ∧
    jsign (snapProxyRectToPixelGrid r).scaleY = jsign r.scaleY := by
  have habsW : (0 : ℚ) < max ((|jround (r.width * r.scaleX)| : ℤ) : ℚ) 1 :=
    lt_of_lt_of_le one_pos (le_max_right _ 1)
  have habsH : (0 : ℚ) < max ((|jround (r.height * r.scaleY)| : ℤ) : ℚ) 1 :=
    lt_of_lt_of_le one_pos (le_max_right _ 1)
  refine ⟨rfl, rfl, ?_, ?_, ?_, ?_⟩
  · show r.width * |max ((|jround (r.width * r.scaleX)| : ℤ) : ℚ) 1 / r.width *
      jsign r.scaleX| = _
    rw [abs_mul, abs_jsign_of_ne hsx, mul_one, abs_div, abs_of_pos habsW, abs_of_pos hw]
    field_simp
  · show r.height * |max ((|jround (r.height * r.scaleY)| : ℤ) : ℚ) 1 / r.height *
      jsign r.scaleY| = _
    rw [abs_mul, abs_jsign_of_ne hsy, mul_one, abs_div, abs_of_pos habsH, abs_of_pos hh]
    field_simp
  · show jsign (max ((|jround (r.width * r.scaleX)| : ℤ) : ℚ) 1 / r.width *
      jsign r.scaleX) = _
    rw [jsign_mul_pos (div_pos habsW hw)]
    rcases lt_trichotomy r.scaleX 0 with hq | hq | hq
    · simp [jsign, hq, not_lt.mpr hq.le]
    · exact absurd hq hsx
    · simp [jsign, hq]
  · show jsign (max ((|jround (r.height * r.scaleY)| : ℤ) : ℚ) 1 / r.height *
      jsign r.scaleY) = _
    rw [jsign_mul_pos (div_pos habsH hh)]
    rcases lt_trichotomy r.scaleY 0 with hq | hq | hq
    · simp [jsign, hq, not_lt.mpr hq.le]
    · exact absurd hq hsy
    · simp [jsign, hq]

/-- Witness for C5 at a concrete proxy rect (width 2, height 3, scales
`3/2` and `-1`). -/
theorem snapProxyRectToPixelGrid_exact_witness :
    (snapProxyRectToPixelGrid ⟨1/4, 0, 2, 3, 3/2, -1, 0⟩).x =
      (jround (⟨1/4, 0, 2, 3, 3/2, -1, 0⟩ : ProxyRect).x : ℚ) ∧
    (snapProxyRectToPixelGrid ⟨1/4, 0, 2, 3, 3/2, -1, 0⟩).y =
      (jround (⟨1/4, 0, 2, 3, 3/2, -1, 0⟩ : ProxyRect).y : ℚ) ∧
    (⟨1/4, 0, 2, 3, 3/2, -1, 0⟩ : ProxyRect).width *
        |(snapProxyRectToPixelGrid ⟨1/4, 0, 2, 3, 3/2, -1, 0⟩).scaleX| =
      max ((|jround ((⟨1/4, 0, 2, 3, 3/2, -1, 0⟩ : ProxyRect).width *
        (⟨1/4, 0, 2, 3, 3/2, -1, 0⟩ : ProxyRect).scaleX)| : ℤ) : ℚ) 1 ∧
    (⟨1/4, 0, 2, 3, 3/2, -1, 0⟩ : ProxyRect).height *
        |(snapProxyRectToPixelGrid ⟨1/4, 0, 2, 3, 3/2, -1, 0⟩).scaleY| =
      max ((|jround ((⟨1/4, 0, 2, 3, 3/2, -1, 0⟩ : ProxyRect).height *
        (⟨1/4, 0, 2, 3, 3/2, -1, 0⟩ : ProxyRect).scaleY)| : ℤ) : ℚ) 1 ∧
    jsign (snapProxyRectToPixelGrid ⟨1/4, 0, 2, 3, 3/2, -1, 0⟩).scaleX =
      jsign (⟨1/4, 0, 2, 3, 3/2, -1, 0⟩ : ProxyRect).scaleX ∧
    jsign (snapProxyRectToPixelGrid ⟨1/4, 0, 2, 3, 3/2, -1, 0⟩).scaleY =
      jsign (⟨1/4, 0, 2, 3, 3/2, -1, 0⟩ : ProxyRect).scaleY :=
  snapProxyRectToPixelGrid_exact ⟨1/4, 0, 2, 3, 3/2, -1, 0⟩ (by norm_num) (by norm_num)
    (by norm_num) (by norm_num)

/-! ## C6: fit-to-bbox strategies -/

theorem clamp_bounds (v lo hi : ℚ) (h : lo ≤ hi) : lo ≤ clamp v lo hi ∧ clamp v lo hi ≤ hi :=
  ⟨le_min (le_max_right v lo) h, min_le_right _ _⟩

/-- C6: with the transform enabled and positive dimensions,
`fitToBboxContain` places the scaled rectangle fully inside the target
with the uniform scale `min(scaleX, scaleY)` and rotation 0, and
`fitToBboxCover` covers the target exactly on the axis realising the
uniform scale `max(scaleX, scaleY)`, with rotation 0. -/
theorem fitToBbox_contain_inside_cover_covers (inp : FitInput)
    (hen : inp.isTransformEnabled = true)
    (hw : 0 < inp.width) (hh : 0 < inp.height)
    (hrw : 0 < inp.rect.width) (hrh : 0 < inp.rect.height) :
    (∃ res, fitToBboxContain inp = some res ∧
      res.scaleX = min (inp.rect.width / inp.width) (inp.rect.height / inp.height) ∧
      res.scaleY = res.scaleX ∧ res.rotation = 0 ∧
      inp.rect.x ≤ res.x ∧ res.x + inp.width * res.scaleX ≤ inp.rect.x + inp.rect.width ∧
      inp.rect.y ≤ res.y ∧ res.y + inp.height * res.scaleY ≤ inp.rect.y + inp.rect.height) ∧
    (∃ res, fitToBboxCover inp = some res ∧
      res.scaleX = max (inp.rect.width / inp.width) (inp.rect.height / inp.height) ∧
      res.scaleY = res.scaleX ∧ res.rotation = 0 ∧
      ((res.x ≤ inp.rect.x ∧
          inp.rect.x + inp.rect.width ≤ res.x + inp.width * res.scaleX) ∨
        (res.y ≤ inp.rect.y ∧
          inp.rect.y + inp.rect.height ≤ res.y + inp.height * res.scaleY))) := by
  have hw' : inp.width ≠ 0 := ne_of_gt hw
  have hh' : inp.height ≠ 0 := ne_of_gt hh
  constructor
  · have hsW : inp.width * min (inp.rect.width / inp.width) (inp.rect.height / inp.height) ≤
        inp.rect.width := by
      calc inp.width * min (inp.rect.width / inp.width) (inp.rect.height / inp.height) ≤
            inp.width * (inp.rect.width / inp.width) :=
              mul_le_mul_of_nonneg_left (min_le_left _ _) hw.le
        _ = inp.rect.width := by field_simp
    have hsH : inp.height * min (inp.rect.width / inp.width) (inp.rect.height / inp.height) ≤
        inp.rect.height := by
      calc inp.height * min (inp.rect.width / inp.width) (inp.rect.height / inp.height) ≤
            inp.height * (inp.rect.height / inp.height) :=
              mul_le_mul_of_nonneg_left (min_le_right _ _) hh.le
        _ = inp.rect.height := by field_simp
    simp only [fitToBboxContain, hen, Bool.not_true, Bool.false_eq_true, if_false]
    refine ⟨_, rfl, rfl, rfl, rfl, ?_, ?_, ?_, ?_⟩
    · exact (clamp_bounds _ _ _ (by linarith)).1
    · have := (clamp_bounds
        (if 1 < inp.gridSize then
          roundToMultiple
            (inp.rect.x + (inp.rect.width -
              inp.width * min (inp.rect.width / inp.width) (inp.rect.height / inp.height)) / 2)
            inp.gridSize
         else inp.rect.x + (inp.rect.width -
            inp.width * min (inp.rect.width / inp.width) (inp.rect.height / inp.height)) / 2)
        inp.rect.x
        (inp.rect.x + inp.rect.width -
          inp.width * min (inp.rect.width / inp.width) (inp.rect.height / inp.height))
        (by linarith)).2
      linarith
    · exact (clamp_bounds _ _ _ (by linarith)).1
    · have := (clamp_bounds
        (if 1 < inp.gridSize then
          roundToMultiple
            (inp.rect.y + (inp.rect.height -
              inp.height * min (inp.rect.width / inp.width) (inp.rect.height / inp.height)) / 2)
            inp.gridSize
         else inp.rect.y + (inp.rect.height -
            inp.height * min (inp.rect.width / inp.width) (inp.rect.height / inp.height)) / 2)
        inp.rect.y
        (inp.rect.y + inp.rect.height -
          inp.height * min (inp.rect.width / inp.width) (inp.rect.height / inp.height))
        (by linarith)).2
      linarith
  · simp only [fitToBboxCover, hen, Bool.not_true, Bool.false_eq_true, if_false]
    refine ⟨_, rfl, rfl, rfl, rfl, ?_⟩
    rcases max_cases (inp.rect.width / inp.width) (inp.rect.height / inp.height) with
      ⟨hmax, _⟩ | ⟨hmax, _⟩
    · left
      have hsW : inp.width * max (inp.rect.width / inp.width) (inp.rect.height / inp.height) =
          inp.rect.width := by rw [hmax]; field_simp
      rw [hsW]
      simp [lt_irrefl]
    · right
      have hsH : inp.height * max (inp.rect.width / inp.width) (inp.rect.height / inp.height) =
          inp.rect.height := by rw [hmax]; field_simp
      rw [hsH]
      simp [lt_irrefl]

/-- Witness for C6 at a concrete input: target rect 8×4 at (0, 0), proxy
rect 2×2, grid size 8. -/
theorem fitToBbox_contain_inside_cover_covers_witness :
    (∃ res, fitToBboxContain ⟨true, ⟨0, 0, 8, 4⟩, 8, 2, 2⟩ = some res ∧
      res.scaleX = min ((8 : ℚ) / 2) ((4 : ℚ) / 2) ∧
      res.scaleY = res.scaleX ∧ res.rotation = 0 ∧
      (0 : ℚ) ≤ res.x ∧ res.x + 2 * res.scaleX ≤ (0 : ℚ) + 8 ∧
      (0 : ℚ) ≤ res.y ∧ res.y + 2 * res.scaleY ≤ (0 : ℚ) + 4) ∧
    (∃ res, fitToBboxCover ⟨true, ⟨0, 0, 8, 4⟩, 8, 2, 2⟩ = some res ∧
      res.scaleX = max ((8 : ℚ) / 2) ((4 : ℚ) / 2) ∧
      res.scaleY = res.scaleX ∧ res.rotation = 0 ∧
      ((res.x ≤ (0 : ℚ) ∧ (0 : ℚ) + 8 ≤ res.x + 2 * res.scaleX) ∨
        (res.y ≤ (0 : ℚ) ∧ (0 : ℚ) + 4 ≤ res.y + 2 * res.scaleY))) :=
  fitToBbox_contain_inside_cover_covers ⟨true, ⟨0, 0, 8, 4⟩, 8, 2, 2⟩ rfl (by norm_num)
    (by norm_num) (by norm_num) (by norm_num)

/-! ## C7: pan-compensated grid snap -/

theorem jround_int_add (K : ℤ) {d : ℚ} (h1 : -(1 / 2) ≤ d) (h2 : d < 1 / 2) :
    jround ((K : ℚ) + d) = K := by
  unfold jround
  rw [add_assoc, add_comm, Int.floor_add_int]
  have h0 : ⌊d + 1 / 2⌋ = 0 := by
    rw [Int.floor_eq_zero_iff]
    constructor <;> simp <;> linarith
  rw [h0, zero_add]

/-- Counterexample to C7 as stated: with grid size 8, stage scale 1 and
stage position (4, 4), the snap of the already-snapped point (0, 0) moves
from (4, 4) to (12, 12). -/
theorem snapWarpAnchor_not_idempotent :
    snapWarpAnchor 8 1 4 4 (snapWarpAnchor 8 1 4 4 ⟨0, 0⟩) ≠
      snapWarpAnchor 8 1 4 4 ⟨0, 0⟩ := by
  have h1 : snapWarpAnchor 8 1 4 4 ⟨0, 0⟩ = ⟨4, 4⟩ := by
    norm_num [snapWarpAnchor, roundToMultiple, jmod, jtrunc, jround]
  have h2 : snapWarpAnchor 8 1 4 4 ⟨4, 4⟩ = ⟨12, 12⟩ := by
    norm_num [snapWarpAnchor, roundToMultiple, jmod, jtrunc, jround]
  rw [h1, h2]
  intro hcontra
  rw [Coordinate.mk.injEq] at hcontra
  exact absurd hcontra.1 (by norm_num)

/-- C7 (amended): the pan-compensated grid snap is idempotent provided the
pan compensation offset (stage position modulo `scale × gridSize`) lies in
`[-scale·gridSize/2, scale·gridSize/2)` on each axis; for `gridSize ≤ 1`
the snap is the identity and trivially idempotent. -/
theorem snapWarpAnchor_idempotent (gridSize s px py : ℚ) (pos : Coordinate)
    (hs : 0 < s)
    (hx : 1 < gridSize →
      -(s * gridSize) / 2 ≤ jmod px (s * gridSize) ∧
        jmod px (s * gridSize) < s * gridSize / 2)
    (hy : 1 < gridSize →
      -(s * gridSize) / 2 ≤ jmod py (s * gridSize) ∧
        jmod py (s * gridSize) < s * gridSize / 2) :
    snapWarpAnchor gridSize s px py (snapWarpAnchor gridSize s px py pos) =
      snapWarpAnchor gridSize s px py pos := by
  by_cases hg : gridSize ≤ 1
  · simp [snapWarpAnchor, hg]
  · have hg' : 1 < gridSize := not_le.mp hg
    have hgpos : (0 : ℚ) < gridSize := lt_trans one_pos hg'
    have hsg : (0 : ℚ) < s * gridSize := mul_pos hs hgpos
    obtain ⟨hx1, hx2⟩ := hx hg'
    obtain ⟨hy1, hy2⟩ := hy hg'
    have hs' : s ≠ 0 := ne_of_gt hs
    have hg0 : gridSize ≠ 0 := ne_of_gt hgpos
    have key : ∀ v offv : ℚ,
        -(s * gridSize) / 2 ≤ offv → offv < s * gridSize / 2 →
        roundToMultiple ((roundToMultiple (v / s) gridSize * s + offv) / s) gridSize * s +
            offv = roundToMultiple (v / s) gridSize * s + offv := by
      intro v offv h1 h2
      have hd1 : -(1 / 2) ≤ offv / (s * gridSize) := by
        rw [le_div_iff hsg]
        linarith
      have hd2 : offv / (s * gridSize) < 1 / 2 := by
        rw [div_lt_iff hsg]
        linarith
      have hquot : ((jround (v / s / gridSize) : ℚ) * gridSize * s + offv) / s / gridSize =
          (jround (v / s / gridSize) : ℚ) + offv / (s * gridSize) := by
        field_simp
        ring
      unfold roundToMultiple
      rw [hquot, jround_int_add (jround (v / s / gridSize)) hd1 hd2]
    simp only [snapWarpAnchor, if_neg hg]
    simp only [Coordinate.mk.injEq]
    exact ⟨key pos.x (jmod px (s * gridSize)) hx1 hx2,
      key pos.y (jmod py (s * gridSize)) hy1 hy2⟩

/-- Witness for the amended C7 at grid size 8, stage scale 1, stage
position (0, 0) (offset 0 on each axis) and the point (3, 5). -/
theorem snapWarpAnchor_idempotent_witness :
    snapWarpAnchor 8 1 0 0 (snapWarpAnchor 8 1 0 0 ⟨3, 5⟩) = snapWarpAnchor 8 1 0 0 ⟨3, 5⟩ :=
  snapWarpAnchor_idempotent 8 1 0 0 ⟨3, 5⟩ (by norm_num)
    (fun _ => by constructor <;> norm_num [jmod, jtrunc])
    (fun _ => by constructor <;> norm_num [jmod, jtrunc])

/-! ## C2: pixel rect vs node rect -/

theorem jround_le (q : ℚ) : (jround q : ℚ) ≤ q + 1 / 2 := by
  unfold jround
  exact_mod_cast Int.floor_le (q + 1 / 2)

/-- Counterexample to C2 as stated: on the worker-failure fallback path
with node rect `{0, 0, 1/2, 1/2}`, the pixel rect is the node rect rounded
to integers (width 1), which exceeds the node rect's width 1/2. -/
theorem calculateRect_pixel_exceeds_node :
    ¬ ((calculateRect ⟨true, true, true, ⟨0, 0, 1/2, 1/2⟩, none⟩).2.width ≤
        (calculateRect ⟨true, true, true, ⟨0, 0, 1/2, 1/2⟩, none⟩).1.width) := by
  have h : calculateRect ⟨true, true, true, ⟨0, 0, 1/2, 1/2⟩, none⟩ =
      (⟨0, 0, 1/2, 1/2⟩, ⟨0, 0, 1, 1⟩) := by
    norm_num [calculateRect, jround]
  rw [h]
  norm_num

/-- C2 (amended): under the worker contract (extents of a non-null
response lie inside the rasterized bitmap), the pixel rect produced by
`calculateRect` never exceeds the node rect by more than half a pixel per
dimension, and away from the worker-failure fallback path it is contained
in the node rect (`pixelRect.width ≤ nodeRect.width`, same for height). -/
theorem calculateRect_pixel_within_node (inp : CalcRectInput)
    (hwc : workerContract inp = true) :
    ((calculateRect inp).2.width ≤ (calculateRect inp).1.width + 1 / 2 ∧
      (calculateRect inp).2.height ≤ (calculateRect inp).1.height + 1 / 2) ∧
    (onWorkerFallbackPath inp = false →
      (calculateRect inp).2.width ≤ (calculateRect inp).1.width ∧
      (calculateRect inp).2.height ≤ (calculateRect inp).1.height) := by
  by_cases h1 : inp.getCanvasOk
  · by_cases h2 : inp.hasObjects
    · by_cases h3 : inp.needsPixelBbox
      · rcases he : inp.workerExtents with _ | e
        · simp only [calculateRect, h1, h2, h3, he, Bool.not_true, Bool.false_eq_true,
            if_false]
          refine ⟨⟨?_, ?_⟩, ?_⟩
          · exact jround_le inp.rect.width
          · exact jround_le inp.rect.height
          · intro hfb
            exfalso
            rw [onWorkerFallbackPath, h1, h2, h3, he] at hfb
            simp at hfb
        · have hc := hwc
          rw [workerContract, he] at hc
          simp only [Bool.and_eq_true, decide_eq_true_eq] at hc
          obtain ⟨⟨⟨hx1, hx2⟩, hy1⟩, hy2⟩ := hc
          have hW : (e.maxX : ℚ) ≤ inp.rect.width - 1 / 2 := by
            have hmt : (0 : ℤ) ≤ jround inp.rect.width := by
              by_contra hneg
              push_neg at hneg
              have : canvasBitmapWidth inp.rect = 0 := by
                unfold canvasBitmapWidth
                omega
              omega
            have h5 : (e.maxX : ℤ) < jround inp.rect.width := by
              have := hx2
              unfold canvasBitmapWidth at this
              omega
            have h6 : ((e.maxX : ℤ) : ℚ) ≤ (jround inp.rect.width : ℚ) - 1 := by
              exact_mod_cast Int.le_sub_one_of_lt h5
            have h7 := jround_le inp.rect.width
            push_cast at h6 ⊢
            linarith
          have hH : (e.maxY : ℚ) ≤ inp.rect.height - 1 / 2 := by
            have hmt : (0 : ℤ) ≤ jround inp.rect.height := by
              by_contra hneg
              push_neg at hneg
              have : canvasBitmapHeight inp.rect = 0 := by
                unfold canvasBitmapHeight
                omega
              omega
            have h5 : (e.maxY : ℤ) < jround inp.rect.height := by
              have := hy2
              unfold canvasBitmapHeight at this
              omega
            have h6 : ((e.maxY : ℤ) : ℚ) ≤ (jround inp.rect.height : ℚ) - 1 := by
              exact_mod_cast Int.le_sub_one_of_lt h5
            have h7 := jround_le inp.rect.height
            push_cast at h6 ⊢
            linarith
          have hminX : (0 : ℚ) ≤ (e.minX : ℚ) := by positivity
          have hminY : (0 : ℚ) ≤ (e.minY : ℚ) := by positivity
          simp only [calculateRect, h1, h2, h3, he, Bool.not_true, Bool.false_eq_true,
            if_false]
          refine ⟨⟨by linarith, by linarith⟩, fun _ => ⟨by linarith, by linarith⟩⟩
      · simp only [calculateRect, h1, h2, eq_self_iff_true, Bool.not_eq_true] at *
        simp only [calculateRect, h1, h2, Bool.not_true, Bool.false_eq_true, if_false,
          Bool.not_eq_true] at *
        simp [calculateRect, h1, h2, h3]
    · simp [calculateRect, h1, h2, getEmptyRect]
  · simp [calculateRect, h1, getEmptyRect]

/-- Witness for the amended C2 on the fast path (no pixel bbox needed),
node rect `{0, 0, 10, 20}`. -/
theorem calculateRect_pixel_within_node_witness :
    (((calculateRect ⟨true, true, false, ⟨0, 0, 10, 20⟩, none⟩).2.width ≤
        (calculateRect ⟨true, true, false, ⟨0, 0, 10, 20⟩, none⟩).1.width + 1 / 2 ∧
      (calculateRect ⟨true, true, false, ⟨0, 0, 10, 20⟩, none⟩).2.height ≤
        (calculateRect ⟨true, true, false, ⟨0, 0, 10, 20⟩, none⟩).1.height + 1 / 2) ∧
    (onWorkerFallbackPath ⟨true, true, false, ⟨0, 0, 10, 20⟩, none⟩ = false →
      (calculateRect ⟨true, true, false, ⟨0, 0, 10, 20⟩, none⟩).2.width ≤
        (calculateRect ⟨true, true, false, ⟨0, 0, 10, 20⟩, none⟩).1.width ∧
      (calculateRect ⟨true, true, false, ⟨0, 0, 10, 20⟩, none⟩).2.height ≤
        (calculateRect ⟨true, true, false, ⟨0, 0, 10, 20⟩, none⟩).1.height)) :=
  calculateRect_pixel_within_node ⟨true, true, false, ⟨0, 0, 10, 20⟩, none⟩ rfl

/-! ## C1: Gauss-Jordan solver correctness -/

theorem length_setRow (M : List (List ℚ)) (i : ℕ) (row : List ℚ) :
    (setRow M i row).length = M.length :=
  length_mapIdxFrom _ _ _

theorem getRow_eq_entry (M : List (List ℚ)) (i j : ℕ) :
    (getRow M i).getD j 0 = entry M i j := rfl

theorem getRow_setRow (M : List (List ℚ)) (i : ℕ) (row : List ℚ) (j : ℕ) :
    getRow (setRow M i row) j = if j = i ∧ j < M.length then row else getRow M j := by
  unfold getRow setRow
  rw [getD_mapIdxFrom]
  by_cases hj : j < M.length
  · by_cases hji : j = i
    · subst hji
      simp [hj]
    · simp [hj, hji]
  · have hc : ¬(j = i ∧ j < M.length) := fun h => hj h.2
    rw [if_neg hj, if_neg hc, getD_len_le M [] (not_lt.mp hj)]

theorem getRow_len_le (M : List (List ℚ)) {i : ℕ} (h : M.length ≤ i) : getRow M i = [] :=
  getD_len_le M [] h

theorem length_scaleRowFrom (col : ℕ) (pivot : ℚ) (row : List ℚ) :
    (scaleRowFrom col pivot row).length = row.length :=
  length_mapIdxFrom _ _ _

theorem length_elimRowFrom (col : ℕ) (colData row : List ℚ) :
    (elimRowFrom col colData row).length = row.length :=
  length_mapIdxFrom _ _ _

theorem getD_scaleRowFrom (col : ℕ) (pivot : ℚ) (row : List ℚ) (j : ℕ) :
    (scaleRowFrom col pivot row).getD j 0 =
      if j < row.length then
        (if col ≤ j then row.getD j 0 / pivot else row.getD j 0)
      else 0 := by
  unfold scaleRowFrom
  rw [getD_mapIdxFrom]
  simp

theorem getD_elimRowFrom (col : ℕ) (colData row : List ℚ) (j : ℕ) :
    (elimRowFrom col colData row).getD j 0 =
      if j < row.length then
        (if col ≤ j then row.getD j 0 - row.getD col 0 * colData.getD j 0 else row.getD j 0)
      else 0 := by
  unfold elimRowFrom
  rw [getD_mapIdxFrom]
  simp

theorem findPivotGo_snd (M : List (List ℚ)) (col : ℕ) :
    ∀ (fuel row : ℕ) (best : ℕ × ℚ), best.2 = |entry M best.1 col| →
      (findPivotGo M col row fuel best).2 =
        |entry M (findPivotGo M col row fuel best).1 col| := by
  intro fuel
  induction fuel with
  | zero => intro row best h; exact h
  | succ f ih =>
      intro row best h
      simp only [findPivotGo]
      apply ih
      by_cases h2 : best.2 < |entry M row col|
      · rw [if_pos h2]
      · rw [if_neg h2]
        exact h

theorem findPivotGo_fst_lt (M : List (List ℚ)) (col : ℕ) :
    ∀ (fuel row : ℕ) (best : ℕ × ℚ), best.1 < row →
      (findPivotGo M col row fuel best).1 < row + fuel := by
  intro fuel
  induction fuel with
  | zero => intro row best h; exact h
  | succ f ih =>
      intro row best h
      simp only [findPivotGo]
      have h3 : (if best.2 < |entry M row col| then (row, |entry M row col|) else best).1 <
          row + 1 := by
        by_cases h2 : best.2 < |entry M row col| <;> simp [h2] <;> omega
      have := ih (row + 1) _ h3
      omega

theorem findPivotGo_fst_le (M : List (List ℚ)) (col : ℕ) :
    ∀ (fuel row : ℕ) (best : ℕ × ℚ), col ≤ best.1 → col ≤ row →
      col ≤ (findPivotGo M col row fuel best).1 := by
  intro fuel
  induction fuel with
  | zero => intro row best h _; exact h
  | succ f ih =>
      intro row best h hr
      simp only [findPivotGo]
      apply ih
      · by_cases h2 : best.2 < |entry M row col| <;> simp [h2] <;> omega
      · omega

theorem findPivot_fst_lt (M : List (List ℚ)) {col n : ℕ} (h : col < n) :
    (findPivot M col n).1 < n := by
  unfold findPivot
  have := findPivotGo_fst_lt M col (n - (col + 1)) (col + 1) (col, |entry M col col|)
    (by omega)
  omega

theorem findPivot_fst_le (M : List (List ℚ)) (col n : ℕ) : col ≤ (findPivot M col n).1 := by
  unfold findPivot
  exact findPivotGo_fst_le M col (n - (col + 1)) (col + 1) (col, |entry M col col|)
    (le_refl col) (by omega)

theorem findPivot_snd (M : List (List ℚ)) (col n : ℕ) :
    (findPivot M col n).2 = |entry M (findPivot M col n).1 col| := by
  unfold findPivot
  exact findPivotGo_snd M col (n - (col + 1)) (col + 1) (col, |entry M col col|) rfl

theorem swapIdx_lt {col pr n : ℕ} (hcol : col < n) (hpr : pr < n) (i : ℕ) (hi : i < n) :
    swapIdx col pr i < n := by
  unfold swapIdx
  split_ifs <;> omega

theorem swapIdx_involutive (col pr : ℕ) (i : ℕ) : swapIdx col pr (swapIdx col pr i) = i := by
  unfold swapIdx
  split_ifs <;> omega

theorem swapIdx_eq_iff {col pr j : ℕ} (hj : j < col) (hpr : col ≤ pr) (i : ℕ) :
    swapIdx col pr i = j ↔ i = j := by
  unfold swapIdx
  split_ifs <;> omega

theorem length_swapStep (M : List (List ℚ)) (col pr : ℕ) :
    (swapStep M col pr).length = M.length := by
  unfold swapStep
  split_ifs <;> simp [length_setRow]

theorem getRow_swapStep (M : List (List ℚ)) {col pr : ℕ} (hcollt : col < M.length)
    (hprlt : pr < M.length) (i : ℕ) :
    getRow (swapStep M col pr) i = getRow M (swapIdx col pr i) := by
  unfold swapStep swapIdx
  by_cases hpc : pr = col
  · subst hpc
    rw [if_neg (by simp)]
    by_cases h1 : i = pr <;> simp [h1]
  · rw [if_pos hpc]
    rw [getRow_setRow, getRow_setRow, length_setRow]
    by_cases h1 : i = pr
    · subst h1
      rw [if_pos ⟨rfl, hprlt⟩, if_neg (by omega), if_pos rfl]
    · rw [if_neg (by tauto)]
      by_cases h2 : i = col
      · subst h2
        rw [if_pos ⟨rfl, hcollt⟩, if_pos rfl]
      · rw [if_neg (by tauto), if_neg h2, if_neg h1]

theorem entry_swapStep (M : List (List ℚ)) {col pr : ℕ} (hcollt : col < M.length)
    (hprlt : pr < M.length) (i j : ℕ) :
    entry (swapStep M col pr) i j = entry M (swapIdx col pr i) j := by
  rw [← getRow_eq_entry, getRow_swapStep M hcollt hprlt, getRow_eq_entry]

theorem swapStep_wellShaped {n : ℕ} {M : List (List ℚ)} (hshape : wellShaped n M)
    {col pr : ℕ} (hcol : col < n) (hpr : pr < n) :
    wellShaped n (swapStep M col pr) := by
  obtain ⟨hlen, hrows⟩ := hshape
  refine ⟨by rw [length_swapStep, hlen], fun i hi => ?_⟩
  rw [getRow_swapStep M (by omega) (by omega)]
  exact hrows _ (swapIdx_lt hcol hpr i hi)

theorem swapStep_idCols {n col pr : ℕ} {M : List (List ℚ)} (hshape : wellShaped n M)
    (hcol : col < n) (hpr : pr < n) (hprge : col ≤ pr) (hid : idCols n col M) :
    idCols n col (swapStep M col pr) := by
  obtain ⟨hlen, _⟩ := hshape
  intro i hi j hj
  rw [entry_swapStep M (by omega) (by omega)]
  rw [hid _ (swapIdx_lt hcol hpr i hi) j hj]
  by_cases hij : i = j
  · simp [hij, (swapIdx_eq_iff hj hprge j).mpr rfl]
  · rw [if_neg fun hc => hij ((swapIdx_eq_iff hj hprge i).mp hc), if_neg hij]

theorem swapStep_transport {n col pr : ℕ} {M : List (List ℚ)} (hshape : wellShaped n M)
    (hcol : col < n) (hpr : pr < n) (x : ℕ → ℚ)
    (hsat : satisfiesSystem n (swapStep M col pr) x) : satisfiesSystem n M x := by
  obtain ⟨hlen, _⟩ := hshape
  intro i hi
  have h1 := hsat (swapIdx col pr i) (swapIdx_lt hcol hpr i hi)
  unfold rowEq at h1 ⊢
  have hrow : ∀ j, entry (swapStep M col pr) (swapIdx col pr i) j = entry M i j := by
    intro j
    rw [entry_swapStep M (by omega) (by omega), swapIdx_involutive]
  rw [Finset.sum_congr rfl fun j _ => by rw [hrow j]] at h1
  rw [hrow n] at h1
  exact h1

theorem scaleStage_entry_ne {col : ℕ} {M1 : List (List ℚ)} {cd : List ℚ} {i : ℕ}
    (hne : i ≠ col) (j : ℕ) : entry (setRow M1 col cd) i j = entry M1 i j := by
  rw [← getRow_eq_entry, getRow_setRow, if_neg (by tauto), getRow_eq_entry]

theorem scaleStage_entry {n col : ℕ} {M1 : List (List ℚ)} (hshape : wellShaped n M1)
    (hcol : col < n) (hid : idCols n col M1) (j : ℕ) :
    entry (setRow M1 col (scaleRowFrom col ((getRow M1 col).getD col 0) (getRow M1 col)))
        col j = entry M1 col j / entry M1 col col := by
  obtain ⟨hlen, hrows⟩ := hshape
  rw [← getRow_eq_entry, getRow_setRow, if_pos ⟨rfl, by omega⟩, getD_scaleRowFrom,
    hrows col hcol]
  by_cases hj : j < n + 1
  · rw [if_pos hj]
    by_cases hcj : col ≤ j
    · rw [if_pos hcj, getRow_eq_entry, getRow_eq_entry]
    · rw [if_neg hcj, getRow_eq_entry]
      rw [hid col hcol j (by omega), if_neg (by omega)]
      rw [zero_div]
  · rw [if_neg hj]
    have h0 : entry M1 col j = 0 := by
      rw [← getRow_eq_entry]
      rw [getD_len_le _ _ (by rw [hrows col hcol]; omega)]
    rw [h0, zero_div]

theorem scaleStage_wellShaped {n col : ℕ} {M1 : List (List ℚ)} (hshape : wellShaped n M1)
    (hcol : col < n) :
    wellShaped n (setRow M1 col (scaleRowFrom col ((getRow M1 col).getD col 0)
      (getRow M1 col))) := by
  obtain ⟨hlen, hrows⟩ := hshape
  refine ⟨by rw [length_setRow, hlen], fun i hi => ?_⟩
  rw [getRow_setRow]
  by_cases hic : i = col
  · subst hic
    rw [if_pos ⟨rfl, by omega⟩, length_scaleRowFrom]
    exact hrows i hi
  · rw [if_neg (by tauto)]
    exact hrows i hi

theorem scaleStage_idCols {n col : ℕ} {M1 : List (List ℚ)} (hshape : wellShaped n M1)
    (hcol : col < n) (hid : idCols n col M1) :
    idCols n col (setRow M1 col (scaleRowFrom col ((getRow M1 col).getD col 0)
      (getRow M1 col))) := by
  intro i hi j hj
  by_cases hic : i = col
  · subst hic
    rw [scaleStage_entry hshape hcol hid, hid i hi j hj, if_neg (show ¬ i = j by omega),
      zero_div]
  · rw [scaleStage_entry_ne hic, hid i hi j hj]

theorem scaleStage_pivot_one {n col : ℕ} {M1 : List (List ℚ)} (hshape : wellShaped n M1)
    (hcol : col < n) (hid : idCols n col M1) (hpiv : entry M1 col col ≠ 0) :
    entry (setRow M1 col (scaleRowFrom col ((getRow M1 col).getD col 0) (getRow M1 col)))
        col col = 1 := by
  rw [scaleStage_entry hshape hcol hid, div_self hpiv]

theorem scaleStage_transport {n col : ℕ} {M1 : List (List ℚ)} (hshape : wellShaped n M1)
    (hcol : col < n) (hid : idCols n col M1) (hpiv : entry M1 col col ≠ 0) (x : ℕ → ℚ)
    (hsat : satisfiesSystem n (setRow M1 col (scaleRowFrom col ((getRow M1 col).getD col 0)
      (getRow M1 col))) x) :
    satisfiesSystem n M1 x := by
  intro i hi
  by_cases hic : i = col
  · subst hic
    have h1 := hsat i hi
    unfold rowEq at h1 ⊢
    rw [Finset.sum_congr rfl fun j _ => by
        rw [scaleStage_entry hshape hcol hid, div_mul_eq_mul_div]] at h1
    rw [← Finset.sum_div, scaleStage_entry hshape hcol hid] at h1
    have h2 : (∑ j in Finset.range n, entry M1 i j * x j) / entry M1 i i * entry M1 i i =
        entry M1 i n / entry M1 i i * entry M1 i i := by rw [h1]
    rwa [div_mul_cancel₀ _ hpiv, div_mul_cancel₀ _ hpiv] at h2
  · have h1 := hsat i hi
    unfold rowEq at h1 ⊢
    rw [Finset.sum_congr rfl fun j _ => by rw [scaleStage_entry_ne hic]] at h1
    rw [scaleStage_entry_ne hic] at h1
    exact h1

theorem getRow_elimStage (col : ℕ) (M2 : List (List ℚ)) {i : ℕ} (hi : i < M2.length) :
    getRow (mapIdxFrom
        (fun r row => if r = col then row else elimRowFrom col (getRow M2 col) row) 0 M2) i =
      if i = col then getRow M2 i else elimRowFrom col (getRow M2 col) (getRow M2 i) := by
  unfold getRow
  rw [getD_mapIdxFrom, if_pos hi, Nat.zero_add]

theorem elimStage_entry_col {col : ℕ} {M2 : List (List ℚ)} {cd : List ℚ}
    (hcd : cd = getRow M2 col) (hcollt : col < M2.length) (j : ℕ) :
    entry (mapIdxFrom
        (fun r row => if r = col then row else elimRowFrom col cd row) 0 M2)
      col j = entry M2 col j := by
  subst hcd
  rw [← getRow_eq_entry, getRow_elimStage col M2 hcollt, if_pos rfl, getRow_eq_entry]

theorem elimStage_entry_ne {n col : ℕ} {M2 : List (List ℚ)} {cd : List ℚ}
    (hcd : cd = getRow M2 col) (hshape : wellShaped n M2)
    (hcol : col < n) (hid : idCols n col M2) {r : ℕ} (hr : r < n) (hrc : r ≠ col) (j : ℕ) :
    entry (mapIdxFrom
        (fun r row => if r = col then row else elimRowFrom col cd row) 0 M2)
      r j = entry M2 r j - entry M2 r col * entry M2 col j := by
  subst hcd
  obtain ⟨hlen, hrows⟩ := hshape
  rw [← getRow_eq_entry, getRow_elimStage col M2 (by omega), if_neg hrc,
    getD_elimRowFrom, hrows r hr]
  by_cases hj : j < n + 1
  · rw [if_pos hj]
    by_cases hcj : col ≤ j
    · rw [if_pos hcj, getRow_eq_entry, getRow_eq_entry, getRow_eq_entry]
    · rw [if_neg hcj, getRow_eq_entry,
        hid col hcol j (by omega), if_neg (show ¬ col = j by omega), mul_zero, sub_zero]
  · rw [if_neg hj]
    have h0r : entry M2 r j = 0 := by
      rw [← getRow_eq_entry, getD_len_le _ _ (by rw [hrows r hr]; omega)]
    have h0c : entry M2 col j = 0 := by
      rw [← getRow_eq_entry, getD_len_le _ _ (by rw [hrows col hcol]; omega)]
    rw [h0r, h0c, mul_zero, sub_zero]

theorem elimStage_wellShaped {n col : ℕ} {M2 : List (List ℚ)} {cd : List ℚ}
    (hcd : cd = getRow M2 col) (hshape : wellShaped n M2) (hcol : col < n) :
    wellShaped n (mapIdxFrom
        (fun r row => if r = col then row else elimRowFrom col cd row) 0 M2) := by
  subst hcd
  obtain ⟨hlen, hrows⟩ := hshape
  refine ⟨by rw [length_mapIdxFrom, hlen], fun i hi => ?_⟩
  rw [getRow_elimStage col M2 (by omega)]
  by_cases hic : i = col
  · rw [if_pos hic]
    exact hrows i hi
  · rw [if_neg hic, length_elimRowFrom]
    exact hrows i hi

theorem elimStage_idCols {n col : ℕ} {M2 : List (List ℚ)} {cd : List ℚ}
    (hcd : cd = getRow M2 col) (hshape : wellShaped n M2)
    (hcol : col < n) (hid : idCols n col M2) (hone : entry M2 col col = 1) :
    idCols n (col + 1) (mapIdxFrom
        (fun r row => if r = col then row else elimRowFrom col cd row) 0 M2) := by
  subst hcd
  obtain ⟨hlen, hrows⟩ := hshape
  intro i hi j hj
  by_cases hic : i = col
  · rw [hic, elimStage_entry_col rfl (by omega)]
    by_cases hjc : j = col
    · rw [hjc, hone, if_pos rfl]
    · rw [hid col hcol j (by omega)]
  · rw [elimStage_entry_ne rfl ⟨hlen, hrows⟩ hcol hid hi hic]
    by_cases hjc : j = col
    · rw [hjc, hone, mul_one, sub_self, if_neg hic]
    · rw [hid i hi j (by omega), hid col hcol j (by omega),
        if_neg (show ¬ col = j by omega), mul_zero, sub_zero]

theorem elimStage_transport {n col : ℕ} {M2 : List (List ℚ)} {cd : List ℚ}
    (hcd : cd = getRow M2 col) (hshape : wellShaped n M2)
    (hcol : col < n) (hid : idCols n col M2) (x : ℕ → ℚ)
    (hsat : satisfiesSystem n (mapIdxFrom
        (fun r row => if r = col then row else elimRowFrom col cd row) 0 M2) x) :
    satisfiesSystem n M2 x := by
  subst hcd
  obtain ⟨hlen, hrows⟩ := hshape
  have hcolEq : rowEq n M2 col x := by
    have h1 := hsat col hcol
    unfold rowEq at h1 ⊢
    rw [Finset.sum_congr rfl fun j _ => by rw [elimStage_entry_col rfl (by omega)]] at h1
    rw [elimStage_entry_col rfl (by omega)] at h1
    exact h1
  intro r hr
  by_cases hrc : r = col
  · subst hrc
    exact hcolEq
  · have h1 := hsat r hr
    unfold rowEq at h1 hcolEq ⊢
    rw [Finset.sum_congr rfl fun j _ => by
        rw [elimStage_entry_ne rfl ⟨hlen, hrows⟩ hcol hid hr hrc]] at h1
    rw [elimStage_entry_ne rfl ⟨hlen, hrows⟩ hcol hid hr hrc] at h1
    have hrw : (∑ j in Finset.range n,
        (entry M2 r j - entry M2 r col * entry M2 col j) * x j) =
        (∑ j in Finset.range n, entry M2 r j * x j) -
          entry M2 r col * ∑ j in Finset.range n, entry M2 col j * x j := by
      rw [Finset.mul_sum, ← Finset.sum_sub_distrib]
      exact Finset.sum_congr rfl fun j _ => by ring
    rw [hrw, hcolEq] at h1
    linarith

/-- One elimination column preserves the shape, extends the identity
prefix by one column, and transports solutions of the new system back to
the old one. -/
theorem eliminateStep_sound {n col : ℕ} {M M' : List (List ℚ)}
    (hshape : wellShaped n M) (hcol : col < n) (hid : idCols n col M)
    (hstep : eliminateStep M col n = some M') :
    wellShaped n M' ∧ idCols n (col + 1) M' ∧
      ∀ x, satisfiesSystem n M' x → satisfiesSystem n M x := by
  by_cases hp : (findPivot M col n).2 = 0
  · exfalso
    simp only [eliminateStep] at hstep
    rw [if_pos hp] at hstep
    exact Option.noConfusion hstep
  · simp only [eliminateStep] at hstep
    rw [if_neg hp] at hstep
    have hM := Option.some.inj hstep
    set pr := (findPivot M col n).1 with hprdef
    have hprlt : pr < n := findPivot_fst_lt M hcol
    have hprge : col ≤ pr := findPivot_fst_le M col n
    have hpiv : entry M pr col ≠ 0 := by
      intro h0
      apply hp
      rw [findPivot_snd, ← hprdef, h0, abs_zero]
    have hshape1 : wellShaped n (swapStep M col pr) := swapStep_wellShaped hshape hcol hprlt
    have hid1 : idCols n col (swapStep M col pr) :=
      swapStep_idCols hshape hcol hprlt hprge hid
    have hpiv1 : entry (swapStep M col pr) col col ≠ 0 := by
      have hlenM : M.length = n := hshape.1
      have hswapcol : swapIdx col pr col = pr := by
        unfold swapIdx
        rw [if_pos rfl]
      rw [entry_swapStep M (by omega) (by omega), hswapcol]
      exact hpiv
    have hshape2 := scaleStage_wellShaped hshape1 hcol
    have hid2 := scaleStage_idCols hshape1 hcol hid1
    have hone2 := scaleStage_pivot_one hshape1 hcol hid1 hpiv1
    have hcd : scaleRowFrom col ((getRow (swapStep M col pr) col).getD col 0)
        (getRow (swapStep M col pr) col) =
        getRow (setRow (swapStep M col pr) col
          (scaleRowFrom col ((getRow (swapStep M col pr) col).getD col 0)
            (getRow (swapStep M col pr) col))) col := by
      rw [getRow_setRow, if_pos ⟨rfl, by rw [length_swapStep]; exact hshape.1 ▸ hcol⟩]
    rcases hM.symm with rfl
    exact ⟨elimStage_wellShaped hcd hshape2 hcol,
      elimStage_idCols hcd hshape2 hcol hid2 hone2,
      fun x hsat =>
        swapStep_transport hshape hcol hprlt x
          (scaleStage_transport hshape1 hcol hid1 hpiv1 x
            (elimStage_transport hcd hshape2 hcol hid2 x hsat))⟩

/-- The outer column loop: from a matrix whose first `col` columns form
the identity, a successful run yields the full identity prefix and
transports solutions back to the start. -/
theorem gaussJordanGo_sound {n : ℕ} :
    ∀ (fuel col : ℕ) (M Mf : List (List ℚ)), col + fuel = n →
      wellShaped n M → idCols n col M → gaussJordanGo n fuel col M = some Mf →
      wellShaped n Mf ∧ idCols n n Mf ∧
        ∀ x, satisfiesSystem n Mf x → satisfiesSystem n M x := by
  intro fuel
  induction fuel with
  | zero =>
      intro col M Mf hsum hshape hid hgo
      have hMf := Option.some.inj hgo
      rcases hMf with rfl
      have hcoln : col = n := by omega
      subst hcoln
      exact ⟨hshape, hid, fun _ h => h⟩
  | succ f ih =>
      intro col M Mf hsum hshape hid hgo
      simp only [gaussJordanGo] at hgo
      rcases Option.bind_eq_some.mp hgo with ⟨M1, hstep, hrest⟩
      have hcol : col < n := by omega
      obtain ⟨hshape1, hid1, htrans1⟩ := eliminateStep_sound hshape hcol hid hstep
      obtain ⟨hshapef, hidf, htransf⟩ := ih (col + 1) M1 Mf (by omega) hshape1 hid1 hrest
      exact ⟨hshapef, hidf, fun x hx => htrans1 x (htransf x hx)⟩

/-- A successful Gauss-Jordan run on a well-shaped augmented matrix
reduces it to the identity with the solution in the last column, and that
solution satisfies the original system. -/
theorem gaussJordan_sound {n : ℕ} {M Mf : List (List ℚ)} (hshape : wellShaped n M)
    (hgj : gaussJordan M n = some Mf) :
    wellShaped n Mf ∧ satisfiesSystem n M (fun j => entry Mf j n) := by
  have h0 : idCols n 0 M := fun i _ j hj => absurd hj (Nat.not_lt_zero j)
  obtain ⟨hshapef, hidf, htrans⟩ :=
    gaussJordanGo_sound n 0 M Mf (by omega) hshape h0 hgj
  refine ⟨hshapef, htrans _ fun i hi => ?_⟩
  unfold rowEq
  show (∑ j in Finset.range n, entry Mf i j * entry Mf j n) = entry Mf i n
  calc (∑ j in Finset.range n, entry Mf i j * entry Mf j n)
      = ∑ j in Finset.range n, (if i = j then entry Mf j n else 0) :=
        Finset.sum_congr rfl fun j hj => by
          rw [hidf i hi j (Finset.mem_range.mp hj)]
          by_cases hij : i = j
          · rw [if_pos hij, if_pos hij, one_mul]
          · rw [if_neg hij, if_neg hij, zero_mul]
    _ = entry Mf i n := by
        rw [Finset.sum_ite_eq (Finset.range n) i fun j => entry Mf j n,
          if_pos (Finset.mem_range.mpr hi)]

theorem getRow_augmentRows (A : List (List ℚ)) (b : List ℚ) {i : ℕ} (hi : i < A.length) :
    getRow (augmentRows A b) i = getRow A i ++ [b.getD i 0] := by
  unfold augmentRows getRow
  rw [getD_mapIdxFrom, if_pos hi, Nat.zero_add]

theorem augmentRows_wellShaped {n : ℕ} {A : List (List ℚ)} {b : List ℚ}
    (hAl : A.length = n) (hrows : ∀ i < n, (getRow A i).length = n) :
    wellShaped n (augmentRows A b) := by
  refine ⟨by rw [augmentRows, length_mapIdxFrom, hAl], fun i hi => ?_⟩
  rw [getRow_augmentRows A b (by omega), List.length_append, List.length_singleton,
    hrows i hi]

theorem entry_augmentRows_lt {n : ℕ} {A : List (List ℚ)} {b : List ℚ}
    (hAl : A.length = n) (hrows : ∀ i < n, (getRow A i).length = n) {i j : ℕ}
    (hi : i < n) (hj : j < n) : entry (augmentRows A b) i j = entry A i j := by
  rw [← getRow_eq_entry, getRow_augmentRows A b (by omega), getD_append_single,
    if_pos (by rw [hrows i hi]; omega), getRow_eq_entry]

theorem entry_augmentRows_last {n : ℕ} {A : List (List ℚ)} {b : List ℚ}
    (hAl : A.length = n) (hrows : ∀ i < n, (getRow A i).length = n) {i : ℕ}
    (hi : i < n) : entry (augmentRows A b) i n = b.getD i 0 := by
  rw [← getRow_eq_entry, getRow_augmentRows A b (by omega), getD_append_single,
    if_neg (by rw [hrows i hi]; omega), if_pos (hrows i hi).symm]

/-- Correctness of `solveLinearSystem`: when the elimination succeeds, the
returned vector satisfies the original square system `A · sol = b`. -/
theorem solveLinearSystem_correct {n : ℕ} {A : List (List ℚ)} {b : List ℚ}
    (hbl : b.length = n) (hAl : A.length = n) (hrows : ∀ i < n, (getRow A i).length = n)
    (hs : solveSucceeds A b = true) :
    ∀ i < n,
      (∑ j in Finset.range n, entry A i j * (solveLinearSystem A b).getD j 0) =
        b.getD i 0 := by
  rw [solveSucceeds, hbl] at hs
  obtain ⟨Mf, hgj⟩ := Option.isSome_iff_exists.mp hs
  have hshape : wellShaped n (augmentRows A b) := augmentRows_wellShaped hAl hrows
  obtain ⟨hshapef, hsat⟩ := gaussJordan_sound hshape hgj
  have hgj' : gaussJordan (augmentRows A b) b.length = some Mf := by
    rw [hbl]
    exact hgj
  have hsol : solveLinearSystem A b = Mf.map fun row => row.getD b.length 0 := by
    simp only [solveLinearSystem, hgj']
  have hsolD : ∀ j, j < n → (solveLinearSystem A b).getD j 0 = entry Mf j n := by
    intro j hj
    rw [hsol, getD_map_of_lt _ _ (by rw [hshapef.1]; omega) 0 []]
    show (Mf.getD j []).getD b.length 0 = entry Mf j n
    rw [hbl]
    rfl
  intro i hi
  have h1 := hsat i hi
  unfold rowEq at h1
  rw [Finset.sum_congr rfl fun j hj => by
      rw [entry_augmentRows_lt hAl hrows hi (Finset.mem_range.mp hj)]] at h1
  rw [entry_augmentRows_last hAl hrows hi] at h1
  rw [Finset.sum_congr rfl fun j hj => by
    rw [hsolD j (Finset.mem_range.mp hj)]]
  exact h1

theorem applyHomography_point (sol : List ℚ) (sx sy dx dy : ℚ)
    (hu : sx * sol.getD 0 0 + sy * sol.getD 1 0 + 1 * sol.getD 2 0 + 0 * sol.getD 3 0 +
      0 * sol.getD 4 0 + 0 * sol.getD 5 0 + -dx * sx * sol.getD 6 0 +
      -dx * sy * sol.getD 7 0 = dx)
    (hv : 0 * sol.getD 0 0 + 0 * sol.getD 1 0 + 0 * sol.getD 2 0 + sx * sol.getD 3 0 +
      sy * sol.getD 4 0 + 1 * sol.getD 5 0 + -dy * sx * sol.getD 6 0 +
      -dy * sy * sol.getD 7 0 = dy)
    (hden : sol.getD 6 0 * sx + sol.getD 7 0 * sy + 1 ≠ 0) :
    applyHomography sol ⟨sx, sy⟩ = ⟨dx, dy⟩ := by
  simp only [applyHomography]
  rw [if_neg hden, Coordinate.mk.injEq]
  constructor
  · rw [div_eq_iff hden]
    linear_combination hu
  · rw [div_eq_iff hden]
    linear_combination hv

/-- C1 (amended): for any four point correspondences whose 8×8 system is
solvable with no zero pivot, the computed homography maps each source
point exactly onto its destination point, provided the projective
denominator of the homography at that source point is nonzero (when the
denominator is exactly zero, `applyHomography` returns `{0, 0}` instead). -/
theorem computeHomography_roundtrip (s0 s1 s2 s3 d0 d1 d2 d3 : Coordinate)
    (hnd : homographyNonDegenerate [s0, s1, s2, s3] [d0, d1, d2, d3] = true)
    (i : Fin 4)
    (hden : homographyDenomAt (computeHomography [s0, s1, s2, s3] [d0, d1, d2, d3])
        ([s0, s1, s2, s3].get i) ≠ 0) :
    applyHomography (computeHomography [s0, s1, s2, s3] [d0, d1, d2, d3])
      ([s0, s1, s2, s3].get i) = [d0, d1, d2, d3].get i := by
  obtain ⟨s0x, s0y⟩ := s0
  obtain ⟨s1x, s1y⟩ := s1
  obtain ⟨s2x, s2y⟩ := s2
  obtain ⟨s3x, s3y⟩ := s3
  obtain ⟨d0x, d0y⟩ := d0
  obtain ⟨d1x, d1y⟩ := d1
  obtain ⟨d2x, d2y⟩ := d2
  obtain ⟨d3x, d3y⟩ := d3
  have hsS : solveSucceeds
      (homographySystem [⟨s0x, s0y⟩, ⟨s1x, s1y⟩, ⟨s2x, s2y⟩, ⟨s3x, s3y⟩]
        [⟨d0x, d0y⟩, ⟨d1x, d1y⟩, ⟨d2x, d2y⟩, ⟨d3x, d3y⟩]).1
      (homographySystem [⟨s0x, s0y⟩, ⟨s1x, s1y⟩, ⟨s2x, s2y⟩, ⟨s3x, s3y⟩]
        [⟨d0x, d0y⟩, ⟨d1x, d1y⟩, ⟨d2x, d2y⟩, ⟨d3x, d3y⟩]).2 = true := by
    have h1 := hnd
    simp only [homographyNonDegenerate, Bool.and_eq_true] at h1
    exact h1.2
  have hch : computeHomography [⟨s0x, s0y⟩, ⟨s1x, s1y⟩, ⟨s2x, s2y⟩, ⟨s3x, s3y⟩]
      [⟨d0x, d0y⟩, ⟨d1x, d1y⟩, ⟨d2x, d2y⟩, ⟨d3x, d3y⟩] =
      solveLinearSystem
        (homographySystem [⟨s0x, s0y⟩, ⟨s1x, s1y⟩, ⟨s2x, s2y⟩, ⟨s3x, s3y⟩]
          [⟨d0x, d0y⟩, ⟨d1x, d1y⟩, ⟨d2x, d2y⟩, ⟨d3x, d3y⟩]).1
        (homographySystem [⟨s0x, s0y⟩, ⟨s1x, s1y⟩, ⟨s2x, s2y⟩, ⟨s3x, s3y⟩]
          [⟨d0x, d0y⟩, ⟨d1x, d1y⟩, ⟨d2x, d2y⟩, ⟨d3x, d3y⟩]).2 := by
    rw [computeHomography, if_neg (by norm_num)]
  have key := @solveLinearSystem_correct 8
    (homographySystem [⟨s0x, s0y⟩, ⟨s1x, s1y⟩, ⟨s2x, s2y⟩, ⟨s3x, s3y⟩]
      [⟨d0x, d0y⟩, ⟨d1x, d1y⟩, ⟨d2x, d2y⟩, ⟨d3x, d3y⟩]).1
    (homographySystem [⟨s0x, s0y⟩, ⟨s1x, s1y⟩, ⟨s2x, s2y⟩, ⟨s3x, s3y⟩]
      [⟨d0x, d0y⟩, ⟨d1x, d1y⟩, ⟨d2x, d2y⟩, ⟨d3x, d3y⟩]).2 rfl rfl
    (by
      intro r hr
      interval_cases r <;> rfl) hsS
  have hu0 := key 0 (by norm_num)
  have hv0 := key 1 (by norm_num)
  have hu1 := key 2 (by norm_num)
  have hv1 := key 3 (by norm_num)
  have hu2 := key 4 (by norm_num)
  have hv2 := key 5 (by norm_num)
  have hu3 := key 6 (by norm_num)
  have hv3 := key 7 (by norm_num)
  simp only [Finset.sum_range_succ, Finset.sum_range_zero,
    zero_add] at hu0 hv0 hu1 hv1 hu2 hv2 hu3 hv3
  rw [hch] at hden ⊢
  fin_cases i
  · exact applyHomography_point _ s0x s0y d0x d0y hu0 hv0 hden
  · exact applyHomography_point _ s1x s1y d1x d1y hu1 hv1 hden
  · exact applyHomography_point _ s2x s2y d2x d2y hu2 hv2 hden
  · exact applyHomography_point _ s3x s3y d3x d3y hu3 hv3 hden

set_option maxHeartbeats 4000000 in
/-- Elimination trace for the C1 counterexample system. -/
theorem ceGaussEval : gaussJordan
      [[1, 1, 1, 0, 0, 0, -5, -5, 5],
       [0, 0, 0, 1, 1, 1, -7, -7, 7],
       [0, 0, 1, 0, 0, 0, 0, 0, -2],
       [0, 0, 0, 0, 0, 1, 0, 0, -3],
       [1, 0, 1, 0, 0, 0, 1/2, 0, -1/2],
       [0, 0, 0, 1, 0, 1, 1/2, 0, -1/2],
       [0, 1, 1, 0, 0, 0, 0, -1, 1],
       [0, 0, 0, 0, 1, 1, 0, -2, 2]] 8 =
    some [[1, 0, 0, 0, 0, 0, 0, 0, 1],
       [0, 1, 0, 0, 0, 0, 0, 0, 1],
       [0, 0, 1, 0, 0, 0, 0, 0, -2],
       [0, 0, 0, 1, 0, 0, 0, 0, 2],
       [0, 0, 0, 0, 1, 0, 0, 0, 1],
       [0, 0, 0, 0, 0, 1, 0, 0, -3],
       [0, 0, 0, 0, 0, 0, 1, 0, 1],
       [0, 0, 0, 0, 0, 0, 0, 1, -2]] := by
  have h0 : eliminateStep
      [[1, 1, 1, 0, 0, 0, -5, -5, 5],
       [0, 0, 0, 1, 1, 1, -7, -7, 7],
       [0, 0, 1, 0, 0, 0, 0, 0, -2],
       [0, 0, 0, 0, 0, 1, 0, 0, -3],
       [1, 0, 1, 0, 0, 0, 1/2, 0, -1/2],
       [0, 0, 0, 1, 0, 1, 1/2, 0, -1/2],
       [0, 1, 1, 0, 0, 0, 0, -1, 1],
       [0, 0, 0, 0, 1, 1, 0, -2, 2]] 0 8 =
    some
      [[1, 1, 1, 0, 0, 0, -5, -5, 5],
       [0, 0, 0, 1, 1, 1, -7, -7, 7],
       [0, 0, 1, 0, 0, 0, 0, 0, -2],
       [0, 0, 0, 0, 0, 1, 0, 0, -3],
       [0, -1, 0, 0, 0, 0, 11/2, 5, -11/2],
       [0, 0, 0, 1, 0, 1, 1/2, 0, -1/2],
       [0, 1, 1, 0, 0, 0, 0, -1, 1],
       [0, 0, 0, 0, 1, 1, 0, -2, 2]] := by
    norm_num [eliminateStep, swapStep, findPivot, findPivotGo, entry, getRow, setRow, scaleRowFrom, elimRowFrom, mapIdxFrom, abs_of_nonneg, abs_of_nonpos]
  have h1 : eliminateStep
      [[1, 1, 1, 0, 0, 0, -5, -5, 5],
       [0, 0, 0, 1, 1, 1, -7, -7, 7],
       [0, 0, 1, 0, 0, 0, 0, 0, -2],
       [0, 0, 0, 0, 0, 1, 0, 0, -3],
       [0, -1, 0, 0, 0, 0, 11/2, 5, -11/2],
       [0, 0, 0, 1, 0, 1, 1/2, 0, -1/2],
       [0, 1, 1, 0, 0, 0, 0, -1, 1],
       [0, 0, 0, 0, 1, 1, 0, -2, 2]] 1 8 =
    some
      [[1, 0, 1, 0, 0, 0, 1/2, 0, -1/2],
       [0, 1, 0, 0, 0, 0, -11/2, -5, 11/2],
       [0, 0, 1, 0, 0, 0, 0, 0, -2],
       [0, 0, 0, 0, 0, 1, 0, 0, -3],
       [0, 0, 0, 1, 1, 1, -7, -7, 7],
       [0, 0, 0, 1, 0, 1, 1/2, 0, -1/2],
       [0, 0, 1, 0, 0, 0, 11/2, 4, -9/2],
       [0, 0, 0, 0, 1, 1, 0, -2, 2]] := by
    norm_num [eliminateStep, swapStep, findPivot, findPivotGo, entry, getRow, setRow, scaleRowFrom, elimRowFrom, mapIdxFrom, abs_of_nonneg, abs_of_nonpos]
  have h2 : eliminateStep
      [[1, 0, 1, 0, 0, 0, 1/2, 0, -1/2],
       [0, 1, 0, 0, 0, 0, -11/2, -5, 11/2],
       [0, 0, 1, 0, 0, 0, 0, 0, -2],
       [0, 0, 0, 0, 0, 1, 0, 0, -3],
       [0, 0, 0, 1, 1, 1, -7, -7, 7],
       [0, 0, 0, 1, 0, 1, 1/2, 0, -1/2],
       [0, 0, 1, 0, 0, 0, 11/2, 4, -9/2],
       [0, 0, 0, 0, 1, 1, 0, -2, 2]] 2 8 =
    some
      [[1, 0, 0, 0, 0, 0, 1/2, 0, 3/2],
       [0, 1, 0, 0, 0, 0, -11/2, -5, 11/2],
       [0, 0, 1, 0, 0, 0, 0, 0, -2],
       [0, 0, 0, 0, 0, 1, 0, 0, -3],
       [0, 0, 0, 1, 1, 1, -7, -7, 7],
       [0, 0, 0, 1, 0, 1, 1/2, 0, -1/2],
       [0, 0, 0, 0, 0, 0, 11/2, 4, -5/2],
       [0, 0, 0, 0, 1, 1, 0, -2, 2]] := by
    norm_num [eliminateStep, swapStep, findPivot, findPivotGo, entry, getRow, setRow, scaleRowFrom, elimRowFrom, mapIdxFrom, abs_of_nonneg, abs_of_nonpos]
  have h3 : eliminateStep
      [[1, 0, 0, 0, 0, 0, 1/2, 0, 3/2],
       [0, 1, 0, 0, 0, 0, -11/2, -5, 11/2],
       [0, 0, 1, 0, 0, 0, 0, 0, -2],
       [0, 0, 0, 0, 0, 1, 0, 0, -3],
       [0, 0, 0, 1, 1, 1, -7, -7, 7],
       [0, 0, 0, 1, 0, 1, 1/2, 0, -1/2],
       [0, 0, 0, 0, 0, 0, 11/2, 4, -5/2],
       [0, 0, 0, 0, 1, 1, 0, -2, 2]] 3 8 =
    some
      [[1, 0, 0, 0, 0, 0, 1/2, 0, 3/2],
       [0, 1, 0, 0, 0, 0, -11/2, -5, 11/2],
       [0, 0, 1, 0, 0, 0, 0, 0, -2],
       [0, 0, 0, 1, 1, 1, -7, -7, 7],
       [0, 0, 0, 0, 0, 1, 0, 0, -3],
       [0, 0, 0, 0, -1, 0, 15/2, 7, -15/2],
       [0, 0, 0, 0, 0, 0, 11/2, 4, -5/2],
       [0, 0, 0, 0, 1, 1, 0, -2, 2]] := by
    norm_num [eliminateStep, swapStep, findPivot, findPivotGo, entry, getRow, setRow, scaleRowFrom, elimRowFrom, mapIdxFrom, abs_of_nonneg, abs_of_nonpos]
  have h4 : eliminateStep
      [[1, 0, 0, 0, 0, 0, 1/2, 0, 3/2],
       [0, 1, 0, 0, 0, 0, -11/2, -5, 11/2],
       [0, 0, 1, 0, 0, 0, 0, 0, -2],
       [0, 0, 0, 1, 1, 1, -7, -7, 7],
       [0, 0, 0, 0, 0, 1, 0, 0, -3],
       [0, 0, 0, 0, -1, 0, 15/2, 7, -15/2],
       [0, 0, 0, 0, 0, 0, 11/2, 4, -5/2],
       [0, 0, 0, 0, 1, 1, 0, -2, 2]] 4 8 =
    some
      [[1, 0, 0, 0, 0, 0, 1/2, 0, 3/2],
       [0, 1, 0, 0, 0, 0, -11/2, -5, 11/2],
       [0, 0, 1, 0, 0, 0, 0, 0, -2],
       [0, 0, 0, 1, 0, 1, 1/2, 0, -1/2],
       [0, 0, 0, 0, 1, 0, -15/2, -7, 15/2],
       [0, 0, 0, 0, 0, 1, 0, 0, -3],
       [0, 0, 0, 0, 0, 0, 11/2, 4, -5/2],
       [0, 0, 0, 0, 0, 1, 15/2, 5, -11/2]] := by
    norm_num [eliminateStep, swapStep, findPivot, findPivotGo, entry, getRow, setRow, scaleRowFrom, elimRowFrom, mapIdxFrom, abs_of_nonneg, abs_of_nonpos]
  have h5 : eliminateStep
      [[1, 0, 0, 0, 0, 0, 1/2, 0, 3/2],
       [0, 1, 0, 0, 0, 0, -11/2, -5, 11/2],
       [0, 0, 1, 0, 0, 0, 0, 0, -2],
       [0, 0, 0, 1, 0, 1, 1/2, 0, -1/2],
       [0, 0, 0, 0, 1, 0, -15/2, -7, 15/2],
       [0, 0, 0, 0, 0, 1, 0, 0, -3],
       [0, 0, 0, 0, 0, 0, 11/2, 4, -5/2],
       [0, 0, 0, 0, 0, 1, 15/2, 5, -11/2]] 5 8 =
    some
      [[1, 0, 0, 0, 0, 0, 1/2, 0, 3/2],
       [0, 1, 0, 0, 0, 0, -11/2, -5, 11/2],
       [0, 0, 1, 0, 0, 0, 0, 0, -2],
       [0, 0, 0, 1, 0, 0, 1/2, 0, 5/2],
       [0, 0, 0, 0, 1, 0, -15/2, -7, 15/2],
       [0, 0, 0, 0, 0, 1, 0, 0, -3],
       [0, 0, 0, 0, 0, 0, 11/2, 4, -5/2],
       [0, 0, 0, 0, 0, 0, 15/2, 5, -5/2]] := by
    norm_num [eliminateStep, swapStep, findPivot, findPivotGo, entry, getRow, setRow, scaleRowFrom, elimRowFrom, mapIdxFrom, abs_of_nonneg, abs_of_nonpos]
  have h6 : eliminateStep
      [[1, 0, 0, 0, 0, 0, 1/2, 0, 3/2],
       [0, 1, 0, 0, 0, 0, -11/2, -5, 11/2],
       [0, 0, 1, 0, 0, 0, 0, 0, -2],
       [0, 0, 0, 1, 0, 0, 1/2, 0, 5/2],
       [0, 0, 0, 0, 1, 0, -15/2, -7, 15/2],
       [0, 0, 0, 0, 0, 1, 0, 0, -3],
       [0, 0, 0, 0, 0, 0, 11/2, 4, -5/2],
       [0, 0, 0, 0, 0, 0, 15/2, 5, -5/2]] 6 8 =
    some
      [[1, 0, 0, 0, 0, 0, 0, -1/3, 5/3],
       [0, 1, 0, 0, 0, 0, 0, -4/3, 11/3],
       [0, 0, 1, 0, 0, 0, 0, 0, -2],
       [0, 0, 0, 1, 0, 0, 0, -1/3, 8/3],
       [0, 0, 0, 0, 1, 0, 0, -2, 5],
       [0, 0, 0, 0, 0, 1, 0, 0, -3],
       [0, 0, 0, 0, 0, 0, 1, 2/3, -1/3],
       [0, 0, 0, 0, 0, 0, 0, 1/3, -2/3]] := by
    norm_num [eliminateStep, swapStep, findPivot, findPivotGo, entry, getRow, setRow, scaleRowFrom, elimRowFrom, mapIdxFrom, abs_of_nonneg, abs_of_nonpos]
  have h7 : eliminateStep
      [[1, 0, 0, 0, 0, 0, 0, -1/3, 5/3],
       [0, 1, 0, 0, 0, 0, 0, -4/3, 11/3],
       [0, 0, 1, 0, 0, 0, 0, 0, -2],
       [0, 0, 0, 1, 0, 0, 0, -1/3, 8/3],
       [0, 0, 0, 0, 1, 0, 0, -2, 5],
       [0, 0, 0, 0, 0, 1, 0, 0, -3],
       [0, 0, 0, 0, 0, 0, 1, 2/3, -1/3],
       [0, 0, 0, 0, 0, 0, 0, 1/3, -2/3]] 7 8 =
    some
      [[1, 0, 0, 0, 0, 0, 0, 0, 1],
       [0, 1, 0, 0, 0, 0, 0, 0, 1],
       [0, 0, 1, 0, 0, 0, 0, 0, -2],
       [0, 0, 0, 1, 0, 0, 0, 0, 2],
       [0, 0, 0, 0, 1, 0, 0, 0, 1],
       [0, 0, 0, 0, 0, 1, 0, 0, -3],
       [0, 0, 0, 0, 0, 0, 1, 0, 1],
       [0, 0, 0, 0, 0, 0, 0, 1, -2]] := by
    norm_num [eliminateStep, swapStep, findPivot, findPivotGo, entry, getRow, setRow, scaleRowFrom, elimRowFrom, mapIdxFrom, abs_of_nonneg, abs_of_nonpos]
  show gaussJordanGo 8 8 0
      [[1, 1, 1, 0, 0, 0, -5, -5, 5],
       [0, 0, 0, 1, 1, 1, -7, -7, 7],
       [0, 0, 1, 0, 0, 0, 0, 0, -2],
       [0, 0, 0, 0, 0, 1, 0, 0, -3],
       [1, 0, 1, 0, 0, 0, 1/2, 0, -1/2],
       [0, 0, 0, 1, 0, 1, 1/2, 0, -1/2],
       [0, 1, 1, 0, 0, 0, 0, -1, 1],
       [0, 0, 0, 0, 1, 1, 0, -2, 2]] =
    _
  rw [show gaussJordanGo 8 8 0
      [[1, 1, 1, 0, 0, 0, -5, -5, 5],
       [0, 0, 0, 1, 1, 1, -7, -7, 7],
       [0, 0, 1, 0, 0, 0, 0, 0, -2],
       [0, 0, 0, 0, 0, 1, 0, 0, -3],
       [1, 0, 1, 0, 0, 0, 1/2, 0, -1/2],
       [0, 0, 0, 1, 0, 1, 1/2, 0, -1/2],
       [0, 1, 1, 0, 0, 0, 0, -1, 1],
       [0, 0, 0, 0, 1, 1, 0, -2, 2]] =
    (eliminateStep
      [[1, 1, 1, 0, 0, 0, -5, -5, 5],
       [0, 0, 0, 1, 1, 1, -7, -7, 7],
       [0, 0, 1, 0, 0, 0, 0, 0, -2],
       [0, 0, 0, 0, 0, 1, 0, 0, -3],
       [1, 0, 1, 0, 0, 0, 1/2, 0, -1/2],
       [0, 0, 0, 1, 0, 1, 1/2, 0, -1/2],
       [0, 1, 1, 0, 0, 0, 0, -1, 1],
       [0, 0, 0, 0, 1, 1, 0, -2, 2]] 0 8).bind
      (gaussJordanGo 8 7 1) from rfl, h0]
  rw [Option.some_bind]
  rw [show gaussJordanGo 8 7 1
      [[1, 1, 1, 0, 0, 0, -5, -5, 5],
       [0, 0, 0, 1, 1, 1, -7, -7, 7],
       [0, 0, 1, 0, 0, 0, 0, 0, -2],
       [0, 0, 0, 0, 0, 1, 0, 0, -3],
       [0, -1, 0, 0, 0, 0, 11/2, 5, -11/2],
       [0, 0, 0, 1, 0, 1, 1/2, 0, -1/2],
       [0, 1, 1, 0, 0, 0, 0, -1, 1],
       [0, 0, 0, 0, 1, 1, 0, -2, 2]] =
    (eliminateStep
      [[1, 1, 1, 0, 0, 0, -5, -5, 5],
       [0, 0, 0, 1, 1, 1, -7, -7, 7],
       [0, 0, 1, 0, 0, 0, 0, 0, -2],
       [0, 0, 0, 0, 0, 1, 0, 0, -3],
       [0, -1, 0, 0, 0, 0, 11/2, 5, -11/2],
       [0, 0, 0, 1, 0, 1, 1/2, 0, -1/2],
       [0, 1, 1, 0, 0, 0, 0, -1, 1],
       [0, 0, 0, 0, 1, 1, 0, -2, 2]] 1 8).bind
      (gaussJordanGo 8 6 2) from rfl, h1]
  rw [Option.some_bind]
  rw [show gaussJordanGo 8 6 2
      [[1, 0, 1, 0, 0, 0, 1/2, 0, -1/2],
       [0, 1, 0, 0, 0, 0, -11/2, -5, 11/2],
       [0, 0, 1, 0, 0, 0, 0, 0, -2],
       [0, 0, 0, 0, 0, 1, 0, 0, -3],
       [0, 0, 0, 1, 1, 1, -7, -7, 7],
       [0, 0, 0, 1, 0, 1, 1/2, 0, -1/2],
       [0, 0, 1, 0, 0, 0, 11/2, 4, -9/2],
       [0, 0, 0, 0, 1, 1, 0, -2, 2]] =
    (eliminateStep
      [[1, 0, 1, 0, 0, 0, 1/2, 0, -1/2],
       [0, 1, 0, 0, 0, 0, -11/2, -5, 11/2],
       [0, 0, 1, 0, 0, 0, 0, 0, -2],
       [0, 0, 0, 0, 0, 1, 0, 0, -3],
       [0, 0, 0, 1, 1, 1, -7, -7, 7],
       [0, 0, 0, 1, 0, 1, 1/2, 0, -1/2],
       [0, 0, 1, 0, 0, 0, 11/2, 4, -9/2],
       [0, 0, 0, 0, 1, 1, 0, -2, 2]] 2 8).bind
      (gaussJordanGo 8 5 3) from rfl, h2]
  rw [Option.some_bind]
  rw [show gaussJordanGo 8 5 3
      [[1, 0, 0, 0, 0, 0, 1/2, 0, 3/2],
       [0, 1, 0, 0, 0, 0, -11/2, -5, 11/2],
       [0, 0, 1, 0, 0, 0, 0, 0, -2],
       [0, 0, 0, 0, 0, 1, 0, 0, -3],
       [0, 0, 0, 1, 1, 1, -7, -7, 7],
       [0, 0, 0, 1, 0, 1, 1/2, 0, -1/2],
       [0, 0, 0, 0, 0, 0, 11/2, 4, -5/2],
       [0, 0, 0, 0, 1, 1, 0, -2, 2]] =
    (eliminateStep
      [[1, 0, 0, 0, 0, 0, 1/2, 0, 3/2],
       [0, 1, 0, 0, 0, 0, -11/2, -5, 11/2],
       [0, 0, 1, 0, 0, 0, 0, 0, -2],
       [0, 0, 0, 0, 0, 1, 0, 0, -3],
       [0, 0, 0, 1, 1, 1, -7, -7, 7],
       [0, 0, 0, 1, 0, 1, 1/2, 0, -1/2],
       [0, 0, 0, 0, 0, 0, 11/2, 4, -5/2],
       [0, 0, 0, 0, 1, 1, 0, -2, 2]] 3 8).bind
      (gaussJordanGo 8 4 4) from rfl, h3]
  rw [Option.some_bind]
  rw [show gaussJordanGo 8 4 4
      [[1, 0, 0, 0, 0, 0, 1/2, 0, 3/2],
       [0, 1, 0, 0, 0, 0, -11/2, -5, 11/2],
       [0, 0, 1, 0, 0, 0, 0, 0, -2],
       [0, 0, 0, 1, 1, 1, -7, -7, 7],
       [0, 0, 0, 0, 0, 1, 0, 0, -3],
       [0, 0, 0, 0, -1, 0, 15/2, 7, -15/2],
       [0, 0, 0, 0, 0, 0, 11/2, 4, -5/2],
       [0, 0, 0, 0, 1, 1, 0, -2, 2]] =
    (eliminateStep
      [[1, 0, 0, 0, 0, 0, 1/2, 0, 3/2],
       [0, 1, 0, 0, 0, 0, -11/2, -5, 11/2],
       [0, 0, 1, 0, 0, 0, 0, 0, -2],
       [0, 0, 0, 1, 1, 1, -7, -7, 7],
       [0, 0, 0, 0, 0, 1, 0, 0, -3],
       [0, 0, 0, 0, -1, 0, 15/2, 7, -15/2],
       [0, 0, 0, 0, 0, 0, 11/2, 4, -5/2],
       [0, 0, 0, 0, 1, 1, 0, -2, 2]] 4 8).bind
      (gaussJordanGo 8 3 5) from rfl, h4]
  rw [Option.some_bind]
  rw [show gaussJordanGo 8 3 5
      [[1, 0, 0, 0, 0, 0, 1/2, 0, 3/2],
       [0, 1, 0, 0, 0, 0, -11/2, -5, 11/2],
       [0, 0, 1, 0, 0, 0, 0, 0, -2],
       [0, 0, 0, 1, 0, 1, 1/2, 0, -1/2],
       [0, 0, 0, 0, 1, 0, -15/2, -7, 15/2],
       [0, 0, 0, 0, 0, 1, 0, 0, -3],
       [0, 0, 0, 0, 0, 0, 11/2, 4, -5/2],
       [0, 0, 0, 0, 0, 1, 15/2, 5, -11/2]] =
    (eliminateStep
      [[1, 0, 0, 0, 0, 0, 1/2, 0, 3/2],
       [0, 1, 0, 0, 0, 0, -11/2, -5, 11/2],
       [0, 0, 1, 0, 0, 0, 0, 0, -2],
       [0, 0, 0, 1, 0, 1, 1/2, 0, -1/2],
       [0, 0, 0, 0, 1, 0, -15/2, -7, 15/2],
       [0, 0, 0, 0, 0, 1, 0, 0, -3],
       [0, 0, 0, 0, 0, 0, 11/2, 4, -5/2],
       [0, 0, 0, 0, 0, 1, 15/2, 5, -11/2]] 5 8).bind
      (gaussJordanGo 8 2 6) from rfl, h5]
  rw [Option.some_bind]
  rw [show gaussJordanGo 8 2 6
      [[1, 0, 0, 0, 0, 0, 1/2, 0, 3/2],
       [0, 1, 0, 0, 0, 0, -11/2, -5, 11/2],
       [0, 0, 1, 0, 0, 0, 0, 0, -2],
       [0, 0, 0, 1, 0, 0, 1/2, 0, 5/2],
       [0, 0, 0, 0, 1, 0, -15/2, -7, 15/2],
       [0, 0, 0, 0, 0, 1, 0, 0, -3],
       [0, 0, 0, 0, 0, 0, 11/2, 4, -5/2],
       [0, 0, 0, 0, 0, 0, 15/2, 5, -5/2]] =
    (eliminateStep
      [[1, 0, 0, 0, 0, 0, 1/2, 0, 3/2],
       [0, 1, 0, 0, 0, 0, -11/2, -5, 11/2],
       [0, 0, 1, 0, 0, 0, 0, 0, -2],
       [0, 0, 0, 1, 0, 0, 1/2, 0, 5/2],
       [0, 0, 0, 0, 1, 0, -15/2, -7, 15/2],
       [0, 0, 0, 0, 0, 1, 0, 0, -3],
       [0, 0, 0, 0, 0, 0, 11/2, 4, -5/2],
       [0, 0, 0, 0, 0, 0, 15/2, 5, -5/2]] 6 8).bind
      (gaussJordanGo 8 1 7) from rfl, h6]
  rw [Option.some_bind]
  rw [show gaussJordanGo 8 1 7
      [[1, 0, 0, 0, 0, 0, 0, -1/3, 5/3],
       [0, 1, 0, 0, 0, 0, 0, -4/3, 11/3],
       [0, 0, 1, 0, 0, 0, 0, 0, -2],
       [0, 0, 0, 1, 0, 0, 0, -1/3, 8/3],
       [0, 0, 0, 0, 1, 0, 0, -2, 5],
       [0, 0, 0, 0, 0, 1, 0, 0, -3],
       [0, 0, 0, 0, 0, 0, 1, 2/3, -1/3],
       [0, 0, 0, 0, 0, 0, 0, 1/3, -2/3]] =
    (eliminateStep
      [[1, 0, 0, 0, 0, 0, 0, -1/3, 5/3],
       [0, 1, 0, 0, 0, 0, 0, -4/3, 11/3],
       [0, 0, 1, 0, 0, 0, 0, 0, -2],
       [0, 0, 0, 1, 0, 0, 0, -1/3, 8/3],
       [0, 0, 0, 0, 1, 0, 0, -2, 5],
       [0, 0, 0, 0, 0, 1, 0, 0, -3],
       [0, 0, 0, 0, 0, 0, 1, 2/3, -1/3],
       [0, 0, 0, 0, 0, 0, 0, 1/3, -2/3]] 7 8).bind
      (gaussJordanGo 8 0 8) from rfl, h7]
  rw [Option.some_bind]
  rfl

set_option maxHeartbeats 4000000 in
/-- Elimination trace for the C1 witness system (identity correspondence on a 4-square). -/
theorem wGaussEval : gaussJordan
      [[0, 0, 1, 0, 0, 0, 0, 0, 0],
       [0, 0, 0, 0, 0, 1, 0, 0, 0],
       [4, 0, 1, 0, 0, 0, -16, 0, 4],
       [0, 0, 0, 4, 0, 1, 0, 0, 0],
       [4, 4, 1, 0, 0, 0, -16, -16, 4],
       [0, 0, 0, 4, 4, 1, -16, -16, 4],
       [0, 4, 1, 0, 0, 0, 0, 0, 0],
       [0, 0, 0, 0, 4, 1, 0, -16, 4]] 8 =
    some [[1, 0, 0, 0, 0, 0, 0, 0, 1],
       [0, 1, 0, 0, 0, 0, 0, 0, 0],
       [0, 0, 1, 0, 0, 0, 0, 0, 0],
       [0, 0, 0, 1, 0, 0, 0, 0, 0],
       [0, 0, 0, 0, 1, 0, 0, 0, 1],
       [0, 0, 0, 0, 0, 1, 0, 0, 0],
       [0, 0, 0, 0, 0, 0, 1, 0, 0],
       [0, 0, 0, 0, 0, 0, 0, 1, 0]] := by
  have h0 : eliminateStep
      [[0, 0, 1, 0, 0, 0, 0, 0, 0],
       [0, 0, 0, 0, 0, 1, 0, 0, 0],
       [4, 0, 1, 0, 0, 0, -16, 0, 4],
       [0, 0, 0, 4, 0, 1, 0, 0, 0],
       [4, 4, 1, 0, 0, 0, -16, -16, 4],
       [0, 0, 0, 4, 4, 1, -16, -16, 4],
       [0, 4, 1, 0, 0, 0, 0, 0, 0],
       [0, 0, 0, 0, 4, 1, 0, -16, 4]] 0 8 =
    some
      [[1, 0, 1/4, 0, 0, 0, -4, 0, 1],
       [0, 0, 0, 0, 0, 1, 0, 0, 0],
       [0, 0, 1, 0, 0, 0, 0, 0, 0],
       [0, 0, 0, 4, 0, 1, 0, 0, 0],
       [0, 4, 0, 0, 0, 0, 0, -16, 0],
       [0, 0, 0, 4, 4, 1, -16, -16, 4],
       [0, 4, 1, 0, 0, 0, 0, 0, 0],
       [0, 0, 0, 0, 4, 1, 0, -16, 4]] := by
    norm_num [eliminateStep, swapStep, findPivot, findPivotGo, entry, getRow, setRow, scaleRowFrom, elimRowFrom, mapIdxFrom, abs_of_nonneg, abs_of_nonpos]
  have h1 : eliminateStep
      [[1, 0, 1/4, 0, 0, 0, -4, 0, 1],
       [0, 0, 0, 0, 0, 1, 0, 0, 0],
       [0, 0, 1, 0, 0, 0, 0, 0, 0],
       [0, 0, 0, 4, 0, 1, 0, 0, 0],
       [0, 4, 0, 0, 0, 0, 0, -16, 0],
       [0, 0, 0, 4, 4, 1, -16, -16, 4],
       [0, 4, 1, 0, 0, 0, 0, 0, 0],
       [0, 0, 0, 0, 4, 1, 0, -16, 4]] 1 8 =
    some
      [[1, 0, 1/4, 0, 0, 0, -4, 0, 1],
       [0, 1, 0, 0, 0, 0, 0, -4, 0],
       [0, 0, 1, 0, 0, 0, 0, 0, 0],
       [0, 0, 0, 4, 0, 1, 0, 0, 0],
       [0, 0, 0, 0, 0, 1, 0, 0, 0],
       [0, 0, 0, 4, 4, 1, -16, -16, 4],
       [0, 0, 1, 0, 0, 0, 0, 16, 0],
       [0, 0, 0, 0, 4, 1, 0, -16, 4]] := by
    norm_num [eliminateStep, swapStep, findPivot, findPivotGo, entry, getRow, setRow, scaleRowFrom, elimRowFrom, mapIdxFrom, abs_of_nonneg, abs_of_nonpos]
  have h2 : eliminateStep
      [[1, 0, 1/4, 0, 0, 0, -4, 0, 1],
       [0, 1, 0, 0, 0, 0, 0, -4, 0],
       [0, 0, 1, 0, 0, 0, 0, 0, 0],
       [0, 0, 0, 4, 0, 1, 0, 0, 0],
       [0, 0, 0, 0, 0, 1, 0, 0, 0],
       [0, 0, 0, 4, 4, 1, -16, -16, 4],
       [0, 0, 1, 0, 0, 0, 0, 16, 0],
       [0, 0, 0, 0, 4, 1, 0, -16, 4]] 2 8 =
    some
      [[1, 0, 0, 0, 0, 0, -4, 0, 1],
       [0, 1, 0, 0, 0, 0, 0, -4, 0],
       [0, 0, 1, 0, 0, 0, 0, 0, 0],
       [0, 0, 0, 4, 0, 1, 0, 0, 0],
       [0, 0, 0, 0, 0, 1, 0, 0, 0],
       [0, 0, 0, 4, 4, 1, -16, -16, 4],
       [0, 0, 0, 0, 0, 0, 0, 16, 0],
       [0, 0, 0, 0, 4, 1, 0, -16, 4]] := by
    norm_num [eliminateStep, swapStep, findPivot, findPivotGo, entry, getRow, setRow, scaleRowFrom, elimRowFrom, mapIdxFrom, abs_of_nonneg, abs_of_nonpos]
  have h3 : eliminateStep
      [[1, 0, 0, 0, 0, 0, -4, 0, 1],
       [0, 1, 0, 0, 0, 0, 0, -4, 0],
       [0, 0, 1, 0, 0, 0, 0, 0, 0],
       [0, 0, 0, 4, 0, 1, 0, 0, 0],
       [0, 0, 0, 0, 0, 1, 0, 0, 0],
       [0, 0, 0, 4, 4, 1, -16, -16, 4],
       [0, 0, 0, 0, 0, 0, 0, 16, 0],
       [0, 0, 0, 0, 4, 1, 0, -16, 4]] 3 8 =
    some
      [[1, 0, 0, 0, 0, 0, -4, 0, 1],
       [0, 1, 0, 0, 0, 0, 0, -4, 0],
       [0, 0, 1, 0, 0, 0, 0, 0, 0],
       [0, 0, 0, 1, 0, 1/4, 0, 0, 0],
       [0, 0, 0, 0, 0, 1, 0, 0, 0],
       [0, 0, 0, 0, 4, 0, -16, -16, 4],
       [0, 0, 0, 0, 0, 0, 0, 16, 0],
       [0, 0, 0, 0, 4, 1, 0, -16, 4]] := by
    norm_num [eliminateStep, swapStep, findPivot, findPivotGo, entry, getRow, setRow, scaleRowFrom, elimRowFrom, mapIdxFrom, abs_of_nonneg, abs_of_nonpos]
  have h4 : eliminateStep
      [[1, 0, 0, 0, 0, 0, -4, 0, 1],
       [0, 1, 0, 0, 0, 0, 0, -4, 0],
       [0, 0, 1, 0, 0, 0, 0, 0, 0],
       [0, 0, 0, 1, 0, 1/4, 0, 0, 0],
       [0, 0, 0, 0, 0, 1, 0, 0, 0],
       [0, 0, 0, 0, 4, 0, -16, -16, 4],
       [0, 0, 0, 0, 0, 0, 0, 16, 0],
       [0, 0, 0, 0, 4, 1, 0, -16, 4]] 4 8 =
    some
      [[1, 0, 0, 0, 0, 0, -4, 0, 1],
       [0, 1, 0, 0, 0, 0, 0, -4, 0],
       [0, 0, 1, 0, 0, 0, 0, 0, 0],
       [0, 0, 0, 1, 0, 1/4, 0, 0, 0],
       [0, 0, 0, 0, 1, 0, -4, -4, 1],
       [0, 0, 0, 0, 0, 1, 0, 0, 0],
       [0, 0, 0, 0, 0, 0, 0, 16, 0],
       [0, 0, 0, 0, 0, 1, 16, 0, 0]] := by
    norm_num [eliminateStep, swapStep, findPivot, findPivotGo, entry, getRow, setRow, scaleRowFrom, elimRowFrom, mapIdxFrom, abs_of_nonneg, abs_of_nonpos]
  have h5 : eliminateStep
      [[1, 0, 0, 0, 0, 0, -4, 0, 1],
       [0, 1, 0, 0, 0, 0, 0, -4, 0],
       [0, 0, 1, 0, 0, 0, 0, 0, 0],
       [0, 0, 0, 1, 0, 1/4, 0, 0, 0],
       [0, 0, 0, 0, 1, 0, -4, -4, 1],
       [0, 0, 0, 0, 0, 1, 0, 0, 0],
       [0, 0, 0, 0, 0, 0, 0, 16, 0],
       [0, 0, 0, 0, 0, 1, 16, 0, 0]] 5 8 =
    some
      [[1, 0, 0, 0, 0, 0, -4, 0, 1],
       [0, 1, 0, 0, 0, 0, 0, -4, 0],
       [0, 0, 1, 0, 0, 0, 0, 0, 0],
       [0, 0, 0, 1, 0, 0, 0, 0, 0],
       [0, 0, 0, 0, 1, 0, -4, -4, 1],
       [0, 0, 0, 0, 0, 1, 0, 0, 0],
       [0, 0, 0, 0, 0, 0, 0, 16, 0],
       [0, 0, 0, 0, 0, 0, 16, 0, 0]] := by
    norm_num [eliminateStep, swapStep, findPivot, findPivotGo, entry, getRow, setRow, scaleRowFrom, elimRowFrom, mapIdxFrom, abs_of_nonneg, abs_of_nonpos]
  have h6 : eliminateStep
      [[1, 0, 0, 0, 0, 0, -4, 0, 1],
       [0, 1, 0, 0, 0, 0, 0, -4, 0],
       [0, 0, 1, 0, 0, 0, 0, 0, 0],
       [0, 0, 0, 1, 0, 0, 0, 0, 0],
       [0, 0, 0, 0, 1, 0, -4, -4, 1],
       [0, 0, 0, 0, 0, 1, 0, 0, 0],
       [0, 0, 0, 0, 0, 0, 0, 16, 0],
       [0, 0, 0, 0, 0, 0, 16, 0, 0]] 6 8 =
    some
      [[1, 0, 0, 0, 0, 0, 0, 0, 1],
       [0, 1, 0, 0, 0, 0, 0, -4, 0],
       [0, 0, 1, 0, 0, 0, 0, 0, 0],
       [0, 0, 0, 1, 0, 0, 0, 0, 0],
       [0, 0, 0, 0, 1, 0, 0, -4, 1],
       [0, 0, 0, 0, 0, 1, 0, 0, 0],
       [0, 0, 0, 0, 0, 0, 1, 0, 0],
       [0, 0, 0, 0, 0, 0, 0, 16, 0]] := by
    norm_num [eliminateStep, swapStep, findPivot, findPivotGo, entry, getRow, setRow, scaleRowFrom, elimRowFrom, mapIdxFrom, abs_of_nonneg, abs_of_nonpos]
  have h7 : eliminateStep
      [[1, 0, 0, 0, 0, 0, 0, 0, 1],
       [0, 1, 0, 0, 0, 0, 0, -4, 0],
       [0, 0, 1, 0, 0, 0, 0, 0, 0],
       [0, 0, 0, 1, 0, 0, 0, 0, 0],
       [0, 0, 0, 0, 1, 0, 0, -4, 1],
       [0, 0, 0, 0, 0, 1, 0, 0, 0],
       [0, 0, 0, 0, 0, 0, 1, 0, 0],
       [0, 0, 0, 0, 0, 0, 0, 16, 0]] 7 8 =
    some
      [[1, 0, 0, 0, 0, 0, 0, 0, 1],
       [0, 1, 0, 0, 0, 0, 0, 0, 0],
       [0, 0, 1, 0, 0, 0, 0, 0, 0],
       [0, 0, 0, 1, 0, 0, 0, 0, 0],
       [0, 0, 0, 0, 1, 0, 0, 0, 1],
       [0, 0, 0, 0, 0, 1, 0, 0, 0],
       [0, 0, 0, 0, 0, 0, 1, 0, 0],
       [0, 0, 0, 0, 0, 0, 0, 1, 0]] := by
    norm_num [eliminateStep, swapStep, findPivot, findPivotGo, entry, getRow, setRow, scaleRowFrom, elimRowFrom, mapIdxFrom, abs_of_nonneg, abs_of_nonpos]
  show gaussJordanGo 8 8 0
      [[0, 0, 1, 0, 0, 0, 0, 0, 0],
       [0, 0, 0, 0, 0, 1, 0, 0, 0],
       [4, 0, 1, 0, 0, 0, -16, 0, 4],
       [0, 0, 0, 4, 0, 1, 0, 0, 0],
       [4, 4, 1, 0, 0, 0, -16, -16, 4],
       [0, 0, 0, 4, 4, 1, -16, -16, 4],
       [0, 4, 1, 0, 0, 0, 0, 0, 0],
       [0, 0, 0, 0, 4, 1, 0, -16, 4]] =
    _
  rw [show gaussJordanGo 8 8 0
      [[0, 0, 1, 0, 0, 0, 0, 0, 0],
       [0, 0, 0, 0, 0, 1, 0, 0, 0],
       [4, 0, 1, 0, 0, 0, -16, 0, 4],
       [0, 0, 0, 4, 0, 1, 0, 0, 0],
       [4, 4, 1, 0, 0, 0, -16, -16, 4],
       [0, 0, 0, 4, 4, 1, -16, -16, 4],
       [0, 4, 1, 0, 0, 0, 0, 0, 0],
       [0, 0, 0, 0, 4, 1, 0, -16, 4]] =
    (eliminateStep
      [[0, 0, 1, 0, 0, 0, 0, 0, 0],
       [0, 0, 0, 0, 0, 1, 0, 0, 0],
       [4, 0, 1, 0, 0, 0, -16, 0, 4],
       [0, 0, 0, 4, 0, 1, 0, 0, 0],
       [4, 4, 1, 0, 0, 0, -16, -16, 4],
       [0, 0, 0, 4, 4, 1, -16, -16, 4],
       [0, 4, 1, 0, 0, 0, 0, 0, 0],
       [0, 0, 0, 0, 4, 1, 0, -16, 4]] 0 8).bind
      (gaussJordanGo 8 7 1) from rfl, h0]
  rw [Option.some_bind]
  rw [show gaussJordanGo 8 7 1
      [[1, 0, 1/4, 0, 0, 0, -4, 0, 1],
       [0, 0, 0, 0, 0, 1, 0, 0, 0],
       [0, 0, 1, 0, 0, 0, 0, 0, 0],
       [0, 0, 0, 4, 0, 1, 0, 0, 0],
       [0, 4, 0, 0, 0, 0, 0, -16, 0],
       [0, 0, 0, 4, 4, 1, -16, -16, 4],
       [0, 4, 1, 0, 0, 0, 0, 0, 0],
       [0, 0, 0, 0, 4, 1, 0, -16, 4]] =
    (eliminateStep
      [[1, 0, 1/4, 0, 0, 0, -4, 0, 1],
       [0, 0, 0, 0, 0, 1, 0, 0, 0],
       [0, 0, 1, 0, 0, 0, 0, 0, 0],
       [0, 0, 0, 4, 0, 1, 0, 0, 0],
       [0, 4, 0, 0, 0, 0, 0, -16, 0],
       [0, 0, 0, 4, 4, 1, -16, -16, 4],
       [0, 4, 1, 0, 0, 0, 0, 0, 0],
       [0, 0, 0, 0, 4, 1, 0, -16, 4]] 1 8).bind
      (gaussJordanGo 8 6 2) from rfl, h1]
  rw [Option.some_bind]
  rw [show gaussJordanGo 8 6 2
      [[1, 0, 1/4, 0, 0, 0, -4, 0, 1],
       [0, 1, 0, 0, 0, 0, 0, -4, 0],
       [0, 0, 1, 0, 0, 0, 0, 0, 0],
       [0, 0, 0, 4, 0, 1, 0, 0, 0],
       [0, 0, 0, 0, 0, 1, 0, 0, 0],
       [0, 0, 0, 4, 4, 1, -16, -16, 4],
       [0, 0, 1, 0, 0, 0, 0, 16, 0],
       [0, 0, 0, 0, 4, 1, 0, -16, 4]] =
    (eliminateStep
      [[1, 0, 1/4, 0, 0, 0, -4, 0, 1],
       [0, 1, 0, 0, 0, 0, 0, -4, 0],
       [0, 0, 1, 0, 0, 0, 0, 0, 0],
       [0, 0, 0, 4, 0, 1, 0, 0, 0],
       [0, 0, 0, 0, 0, 1, 0, 0, 0],
       [0, 0, 0, 4, 4, 1, -16, -16, 4],
       [0, 0, 1, 0, 0, 0, 0, 16, 0],
       [0, 0, 0, 0, 4, 1, 0, -16, 4]] 2 8).bind
      (gaussJordanGo 8 5 3) from rfl, h2]
  rw [Option.some_bind]
  rw [show gaussJordanGo 8 5 3
      [[1, 0, 0, 0, 0, 0, -4, 0, 1],
       [0, 1, 0, 0, 0, 0, 0, -4, 0],
       [0, 0, 1, 0, 0, 0, 0, 0, 0],
       [0, 0, 0, 4, 0, 1, 0, 0, 0],
       [0, 0, 0, 0, 0, 1, 0, 0, 0],
       [0, 0, 0, 4, 4, 1, -16, -16, 4],
       [0, 0, 0, 0, 0, 0, 0, 16, 0],
       [0, 0, 0, 0, 4, 1, 0, -16, 4]] =
    (eliminateStep
      [[1, 0, 0, 0, 0, 0, -4, 0, 1],
       [0, 1, 0, 0, 0, 0, 0, -4, 0],
       [0, 0, 1, 0, 0, 0, 0, 0, 0],
       [0, 0, 0, 4, 0, 1, 0, 0, 0],
       [0, 0, 0, 0, 0, 1, 0, 0, 0],
       [0, 0, 0, 4, 4, 1, -16, -16, 4],
       [0, 0, 0, 0, 0, 0, 0, 16, 0],
       [0, 0, 0, 0, 4, 1, 0, -16, 4]] 3 8).bind
      (gaussJordanGo 8 4 4) from rfl, h3]
  rw [Option.some_bind]
  rw [show gaussJordanGo 8 4 4
      [[1, 0, 0, 0, 0, 0, -4, 0, 1],
       [0, 1, 0, 0, 0, 0, 0, -4, 0],
       [0, 0, 1, 0, 0, 0, 0, 0, 0],
       [0, 0, 0, 1, 0, 1/4, 0, 0, 0],
       [0, 0, 0, 0, 0, 1, 0, 0, 0],
       [0, 0, 0, 0, 4, 0, -16, -16, 4],
       [0, 0, 0, 0, 0, 0, 0, 16, 0],
       [0, 0, 0, 0, 4, 1, 0, -16, 4]] =
    (eliminateStep
      [[1, 0, 0, 0, 0, 0, -4, 0, 1],
       [0, 1, 0, 0, 0, 0, 0, -4, 0],
       [0, 0, 1, 0, 0, 0, 0, 0, 0],
       [0, 0, 0, 1, 0, 1/4, 0, 0, 0],
       [0, 0, 0, 0, 0, 1, 0, 0, 0],
       [0, 0, 0, 0, 4, 0, -16, -16, 4],
       [0, 0, 0, 0, 0, 0, 0, 16, 0],
       [0, 0, 0, 0, 4, 1, 0, -16, 4]] 4 8).bind
      (gaussJordanGo 8 3 5) from rfl, h4]
  rw [Option.some_bind]
  rw [show gaussJordanGo 8 3 5
      [[1, 0, 0, 0, 0, 0, -4, 0, 1],
       [0, 1, 0, 0, 0, 0, 0, -4, 0],
       [0, 0, 1, 0, 0, 0, 0, 0, 0],
       [0, 0, 0, 1, 0, 1/4, 0, 0, 0],
       [0, 0, 0, 0, 1, 0, -4, -4, 1],
       [0, 0, 0, 0, 0, 1, 0, 0, 0],
       [0, 0, 0, 0, 0, 0, 0, 16, 0],
       [0, 0, 0, 0, 0, 1, 16, 0, 0]] =
    (eliminateStep
      [[1, 0, 0, 0, 0, 0, -4, 0, 1],
       [0, 1, 0, 0, 0, 0, 0, -4, 0],
       [0, 0, 1, 0, 0, 0, 0, 0, 0],
       [0, 0, 0, 1, 0, 1/4, 0, 0, 0],
       [0, 0, 0, 0, 1, 0, -4, -4, 1],
       [0, 0, 0, 0, 0, 1, 0, 0, 0],
       [0, 0, 0, 0, 0, 0, 0, 16, 0],
       [0, 0, 0, 0, 0, 1, 16, 0, 0]] 5 8).bind
      (gaussJordanGo 8 2 6) from rfl, h5]
  rw [Option.some_bind]
  rw [show gaussJordanGo 8 2 6
      [[1, 0, 0, 0, 0, 0, -4, 0, 1],
       [0, 1, 0, 0, 0, 0, 0, -4, 0],
       [0, 0, 1, 0, 0, 0, 0, 0, 0],
       [0, 0, 0, 1, 0, 0, 0, 0, 0],
       [0, 0, 0, 0, 1, 0, -4, -4, 1],
       [0, 0, 0, 0, 0, 1, 0, 0, 0],
       [0, 0, 0, 0, 0, 0, 0, 16, 0],
       [0, 0, 0, 0, 0, 0, 16, 0, 0]] =
    (eliminateStep
      [[1, 0, 0, 0, 0, 0, -4, 0, 1],
       [0, 1, 0, 0, 0, 0, 0, -4, 0],
       [0, 0, 1, 0, 0, 0, 0, 0, 0],
       [0, 0, 0, 1, 0, 0, 0, 0, 0],
       [0, 0, 0, 0, 1, 0, -4, -4, 1],
       [0, 0, 0, 0, 0, 1, 0, 0, 0],
       [0, 0, 0, 0, 0, 0, 0, 16, 0],
       [0, 0, 0, 0, 0, 0, 16, 0, 0]] 6 8).bind
      (gaussJordanGo 8 1 7) from rfl, h6]
  rw [Option.some_bind]
  rw [show gaussJordanGo 8 1 7
      [[1, 0, 0, 0, 0, 0, 0, 0, 1],
       [0, 1, 0, 0, 0, 0, 0, -4, 0],
       [0, 0, 1, 0, 0, 0, 0, 0, 0],
       [0, 0, 0, 1, 0, 0, 0, 0, 0],
       [0, 0, 0, 0, 1, 0, 0, -4, 1],
       [0, 0, 0, 0, 0, 1, 0, 0, 0],
       [0, 0, 0, 0, 0, 0, 1, 0, 0],
       [0, 0, 0, 0, 0, 0, 0, 16, 0]] =
    (eliminateStep
      [[1, 0, 0, 0, 0, 0, 0, 0, 1],
       [0, 1, 0, 0, 0, 0, 0, -4, 0],
       [0, 0, 1, 0, 0, 0, 0, 0, 0],
       [0, 0, 0, 1, 0, 0, 0, 0, 0],
       [0, 0, 0, 0, 1, 0, 0, -4, 1],
       [0, 0, 0, 0, 0, 1, 0, 0, 0],
       [0, 0, 0, 0, 0, 0, 1, 0, 0],
       [0, 0, 0, 0, 0, 0, 0, 16, 0]] 7 8).bind
      (gaussJordanGo 8 0 8) from rfl, h7]
  rw [Option.some_bind]
  rfl

set_option maxHeartbeats 4000000 in
/-- Elimination trace for the collinear-corner warp system: the last pivot is exactly zero. -/
theorem c3GaussEval : gaussJordan
      [[0, 0, 1, 0, 0, 0, 0, 0, 0],
       [0, 0, 0, 0, 0, 1, 0, 0, 0],
       [2, 0, 1, 0, 0, 0, -4, 0, 2],
       [0, 0, 0, 2, 0, 1, 0, 0, 0],
       [2, 2, 1, 0, 0, 0, -6, -6, 3],
       [0, 0, 0, 2, 2, 1, 0, 0, 0],
       [0, 2, 1, 0, 0, 0, 0, -2, 1],
       [0, 0, 0, 0, 2, 1, 0, 0, 0]] 8 = none := by
  have h0 : eliminateStep
      [[0, 0, 1, 0, 0, 0, 0, 0, 0],
       [0, 0, 0, 0, 0, 1, 0, 0, 0],
       [2, 0, 1, 0, 0, 0, -4, 0, 2],
       [0, 0, 0, 2, 0, 1, 0, 0, 0],
       [2, 2, 1, 0, 0, 0, -6, -6, 3],
       [0, 0, 0, 2, 2, 1, 0, 0, 0],
       [0, 2, 1, 0, 0, 0, 0, -2, 1],
       [0, 0, 0, 0, 2, 1, 0, 0, 0]] 0 8 =
    some
      [[1, 0, 1/2, 0, 0, 0, -2, 0, 1],
       [0, 0, 0, 0, 0, 1, 0, 0, 0],
       [0, 0, 1, 0, 0, 0, 0, 0, 0],
       [0, 0, 0, 2, 0, 1, 0, 0, 0],
       [0, 2, 0, 0, 0, 0, -2, -6, 1],
       [0, 0, 0, 2, 2, 1, 0, 0, 0],
       [0, 2, 1, 0, 0, 0, 0, -2, 1],
       [0, 0, 0, 0, 2, 1, 0, 0, 0]] := by
    norm_num [eliminateStep, swapStep, findPivot, findPivotGo, entry, getRow, setRow, scaleRowFrom, elimRowFrom, mapIdxFrom, abs_of_nonneg, abs_of_nonpos]
  have h1 : eliminateStep
      [[1, 0, 1/2, 0, 0, 0, -2, 0, 1],
       [0, 0, 0, 0, 0, 1, 0, 0, 0],
       [0, 0, 1, 0, 0, 0, 0, 0, 0],
       [0, 0, 0, 2, 0, 1, 0, 0, 0],
       [0, 2, 0, 0, 0, 0, -2, -6, 1],
       [0, 0, 0, 2, 2, 1, 0, 0, 0],
       [0, 2, 1, 0, 0, 0, 0, -2, 1],
       [0, 0, 0, 0, 2, 1, 0, 0, 0]] 1 8 =
    some
      [[1, 0, 1/2, 0, 0, 0, -2, 0, 1],
       [0, 1, 0, 0, 0, 0, -1, -3, 1/2],
       [0, 0, 1, 0, 0, 0, 0, 0, 0],
       [0, 0, 0, 2, 0, 1, 0, 0, 0],
       [0, 0, 0, 0, 0, 1, 0, 0, 0],
       [0, 0, 0, 2, 2, 1, 0, 0, 0],
       [0, 0, 1, 0, 0, 0, 2, 4, 0],
       [0, 0, 0, 0, 2, 1, 0, 0, 0]] := by
    norm_num [eliminateStep, swapStep, findPivot, findPivotGo, entry, getRow, setRow, scaleRowFrom, elimRowFrom, mapIdxFrom, abs_of_nonneg, abs_of_nonpos]
  have h2 : eliminateStep
      [[1, 0, 1/2, 0, 0, 0, -2, 0, 1],
       [0, 1, 0, 0, 0, 0, -1, -3, 1/2],
       [0, 0, 1, 0, 0, 0, 0, 0, 0],
       [0, 0, 0, 2, 0, 1, 0, 0, 0],
       [0, 0, 0, 0, 0, 1, 0, 0, 0],
       [0, 0, 0, 2, 2, 1, 0, 0, 0],
       [0, 0, 1, 0, 0, 0, 2, 4, 0],
       [0, 0, 0, 0, 2, 1, 0, 0, 0]] 2 8 =
    some
      [[1, 0, 0, 0, 0, 0, -2, 0, 1],
       [0, 1, 0, 0, 0, 0, -1, -3, 1/2],
       [0, 0, 1, 0, 0, 0, 0, 0, 0],
       [0, 0, 0, 2, 0, 1, 0, 0, 0],
       [0, 0, 0, 0, 0, 1, 0, 0, 0],
       [0, 0, 0, 2, 2, 1, 0, 0, 0],
       [0, 0, 0, 0, 0, 0, 2, 4, 0],
       [0, 0, 0, 0, 2, 1, 0, 0, 0]] := by
    norm_num [eliminateStep, swapStep, findPivot, findPivotGo, entry, getRow, setRow, scaleRowFrom, elimRowFrom, mapIdxFrom, abs_of_nonneg, abs_of_nonpos]
  have h3 : eliminateStep
      [[1, 0, 0, 0, 0, 0, -2, 0, 1],
       [0, 1, 0, 0, 0, 0, -1, -3, 1/2],
       [0, 0, 1, 0, 0, 0, 0, 0, 0],
       [0, 0, 0, 2, 0, 1, 0, 0, 0],
       [0, 0, 0, 0, 0, 1, 0, 0, 0],
       [0, 0, 0, 2, 2, 1, 0, 0, 0],
       [0, 0, 0, 0, 0, 0, 2, 4, 0],
       [0, 0, 0, 0, 2, 1, 0, 0, 0]] 3 8 =
    some
      [[1, 0, 0, 0, 0, 0, -2, 0, 1],
       [0, 1, 0, 0, 0, 0, -1, -3, 1/2],
       [0, 0, 1, 0, 0, 0, 0, 0, 0],
       [0, 0, 0, 1, 0, 1/2, 0, 0, 0],
       [0, 0, 0, 0, 0, 1, 0, 0, 0],
       [0, 0, 0, 0, 2, 0, 0, 0, 0],
       [0, 0, 0, 0, 0, 0, 2, 4, 0],
       [0, 0, 0, 0, 2, 1, 0, 0, 0]] := by
    norm_num [eliminateStep, swapStep, findPivot, findPivotGo, entry, getRow, setRow, scaleRowFrom, elimRowFrom, mapIdxFrom, abs_of_nonneg, abs_of_nonpos]
  have h4 : eliminateStep
      [[1, 0, 0, 0, 0, 0, -2, 0, 1],
       [0, 1, 0, 0, 0, 0, -1, -3, 1/2],
       [0, 0, 1, 0, 0, 0, 0, 0, 0],
       [0, 0, 0, 1, 0, 1/2, 0, 0, 0],
       [0, 0, 0, 0, 0, 1, 0, 0, 0],
       [0, 0, 0, 0, 2, 0, 0, 0, 0],
       [0, 0, 0, 0, 0, 0, 2, 4, 0],
       [0, 0, 0, 0, 2, 1, 0, 0, 0]] 4 8 =
    some
      [[1, 0, 0, 0, 0, 0, -2, 0, 1],
       [0, 1, 0, 0, 0, 0, -1, -3, 1/2],
       [0, 0, 1, 0, 0, 0, 0, 0, 0],
       [0, 0, 0, 1, 0, 1/2, 0, 0, 0],
       [0, 0, 0, 0, 1, 0, 0, 0, 0],
       [0, 0, 0, 0, 0, 1, 0, 0, 0],
       [0, 0, 0, 0, 0, 0, 2, 4, 0],
       [0, 0, 0, 0, 0, 1, 0, 0, 0]] := by
    norm_num [eliminateStep, swapStep, findPivot, findPivotGo, entry, getRow, setRow, scaleRowFrom, elimRowFrom, mapIdxFrom, abs_of_nonneg, abs_of_nonpos]
  have h5 : eliminateStep
      [[1, 0, 0, 0, 0, 0, -2, 0, 1],
       [0, 1, 0, 0, 0, 0, -1, -3, 1/2],
       [0, 0, 1, 0, 0, 0, 0, 0, 0],
       [0, 0, 0, 1, 0, 1/2, 0, 0, 0],
       [0, 0, 0, 0, 1, 0, 0, 0, 0],
       [0, 0, 0, 0, 0, 1, 0, 0, 0],
       [0, 0, 0, 0, 0, 0, 2, 4, 0],
       [0, 0, 0, 0, 0, 1, 0, 0, 0]] 5 8 =
    some
      [[1, 0, 0, 0, 0, 0, -2, 0, 1],
       [0, 1, 0, 0, 0, 0, -1, -3, 1/2],
       [0, 0, 1, 0, 0, 0, 0, 0, 0],
       [0, 0, 0, 1, 0, 0, 0, 0, 0],
       [0, 0, 0, 0, 1, 0, 0, 0, 0],
       [0, 0, 0, 0, 0, 1, 0, 0, 0],
       [0, 0, 0, 0, 0, 0, 2, 4, 0],
       [0, 0, 0, 0, 0, 0, 0, 0, 0]] := by
    norm_num [eliminateStep, swapStep, findPivot, findPivotGo, entry, getRow, setRow, scaleRowFrom, elimRowFrom, mapIdxFrom, abs_of_nonneg, abs_of_nonpos]
  have h6 : eliminateStep
      [[1, 0, 0, 0, 0, 0, -2, 0, 1],
       [0, 1, 0, 0, 0, 0, -1, -3, 1/2],
       [0, 0, 1, 0, 0, 0, 0, 0, 0],
       [0, 0, 0, 1, 0, 0, 0, 0, 0],
       [0, 0, 0, 0, 1, 0, 0, 0, 0],
       [0, 0, 0, 0, 0, 1, 0, 0, 0],
       [0, 0, 0, 0, 0, 0, 2, 4, 0],
       [0, 0, 0, 0, 0, 0, 0, 0, 0]] 6 8 =
    some
      [[1, 0, 0, 0, 0, 0, 0, 4, 1],
       [0, 1, 0, 0, 0, 0, 0, -1, 1/2],
       [0, 0, 1, 0, 0, 0, 0, 0, 0],
       [0, 0, 0, 1, 0, 0, 0, 0, 0],
       [0, 0, 0, 0, 1, 0, 0, 0, 0],
       [0, 0, 0, 0, 0, 1, 0, 0, 0],
       [0, 0, 0, 0, 0, 0, 1, 2, 0],
       [0, 0, 0, 0, 0, 0, 0, 0, 0]] := by
    norm_num [eliminateStep, swapStep, findPivot, findPivotGo, entry, getRow, setRow, scaleRowFrom, elimRowFrom, mapIdxFrom, abs_of_nonneg, abs_of_nonpos]
  have h7 : eliminateStep
      [[1, 0, 0, 0, 0, 0, 0, 4, 1],
       [0, 1, 0, 0, 0, 0, 0, -1, 1/2],
       [0, 0, 1, 0, 0, 0, 0, 0, 0],
       [0, 0, 0, 1, 0, 0, 0, 0, 0],
       [0, 0, 0, 0, 1, 0, 0, 0, 0],
       [0, 0, 0, 0, 0, 1, 0, 0, 0],
       [0, 0, 0, 0, 0, 0, 1, 2, 0],
       [0, 0, 0, 0, 0, 0, 0, 0, 0]] 7 8 = none := by
    norm_num [eliminateStep, swapStep, findPivot, findPivotGo, entry, getRow, setRow, scaleRowFrom, elimRowFrom, mapIdxFrom, abs_of_nonneg, abs_of_nonpos]
  show gaussJordanGo 8 8 0
      [[0, 0, 1, 0, 0, 0, 0, 0, 0],
       [0, 0, 0, 0, 0, 1, 0, 0, 0],
       [2, 0, 1, 0, 0, 0, -4, 0, 2],
       [0, 0, 0, 2, 0, 1, 0, 0, 0],
       [2, 2, 1, 0, 0, 0, -6, -6, 3],
       [0, 0, 0, 2, 2, 1, 0, 0, 0],
       [0, 2, 1, 0, 0, 0, 0, -2, 1],
       [0, 0, 0, 0, 2, 1, 0, 0, 0]] =
    _
  rw [show gaussJordanGo 8 8 0
      [[0, 0, 1, 0, 0, 0, 0, 0, 0],
       [0, 0, 0, 0, 0, 1, 0, 0, 0],
       [2, 0, 1, 0, 0, 0, -4, 0, 2],
       [0, 0, 0, 2, 0, 1, 0, 0, 0],
       [2, 2, 1, 0, 0, 0, -6, -6, 3],
       [0, 0, 0, 2, 2, 1, 0, 0, 0],
       [0, 2, 1, 0, 0, 0, 0, -2, 1],
       [0, 0, 0, 0, 2, 1, 0, 0, 0]] =
    (eliminateStep
      [[0, 0, 1, 0, 0, 0, 0, 0, 0],
       [0, 0, 0, 0, 0, 1, 0, 0, 0],
       [2, 0, 1, 0, 0, 0, -4, 0, 2],
       [0, 0, 0, 2, 0, 1, 0, 0, 0],
       [2, 2, 1, 0, 0, 0, -6, -6, 3],
       [0, 0, 0, 2, 2, 1, 0, 0, 0],
       [0, 2, 1, 0, 0, 0, 0, -2, 1],
       [0, 0, 0, 0, 2, 1, 0, 0, 0]] 0 8).bind
      (gaussJordanGo 8 7 1) from rfl, h0]
  rw [Option.some_bind]
  rw [show gaussJordanGo 8 7 1
      [[1, 0, 1/2, 0, 0, 0, -2, 0, 1],
       [0, 0, 0, 0, 0, 1, 0, 0, 0],
       [0, 0, 1, 0, 0, 0, 0, 0, 0],
       [0, 0, 0, 2, 0, 1, 0, 0, 0],
       [0, 2, 0, 0, 0, 0, -2, -6, 1],
       [0, 0, 0, 2, 2, 1, 0, 0, 0],
       [0, 2, 1, 0, 0, 0, 0, -2, 1],
       [0, 0, 0, 0, 2, 1, 0, 0, 0]] =
    (eliminateStep
      [[1, 0, 1/2, 0, 0, 0, -2, 0, 1],
       [0, 0, 0, 0, 0, 1, 0, 0, 0],
       [0, 0, 1, 0, 0, 0, 0, 0, 0],
       [0, 0, 0, 2, 0, 1, 0, 0, 0],
       [0, 2, 0, 0, 0, 0, -2, -6, 1],
       [0, 0, 0, 2, 2, 1, 0, 0, 0],
       [0, 2, 1, 0, 0, 0, 0, -2, 1],
       [0, 0, 0, 0, 2, 1, 0, 0, 0]] 1 8).bind
      (gaussJordanGo 8 6 2) from rfl, h1]
  rw [Option.some_bind]
  rw [show gaussJordanGo 8 6 2
      [[1, 0, 1/2, 0, 0, 0, -2, 0, 1],
       [0, 1, 0, 0, 0, 0, -1, -3, 1/2],
       [0, 0, 1, 0, 0, 0, 0, 0, 0],
       [0, 0, 0, 2, 0, 1, 0, 0, 0],
       [0, 0, 0, 0, 0, 1, 0, 0, 0],
       [0, 0, 0, 2, 2, 1, 0, 0, 0],
       [0, 0, 1, 0, 0, 0, 2, 4, 0],
       [0, 0, 0, 0, 2, 1, 0, 0, 0]] =
    (eliminateStep
      [[1, 0, 1/2, 0, 0, 0, -2, 0, 1],
       [0, 1, 0, 0, 0, 0, -1, -3, 1/2],
       [0, 0, 1, 0, 0, 0, 0, 0, 0],
       [0, 0, 0, 2, 0, 1, 0, 0, 0],
       [0, 0, 0, 0, 0, 1, 0, 0, 0],
       [0, 0, 0, 2, 2, 1, 0, 0, 0],
       [0, 0, 1, 0, 0, 0, 2, 4, 0],
       [0, 0, 0, 0, 2, 1, 0, 0, 0]] 2 8).bind
      (gaussJordanGo 8 5 3) from rfl, h2]
  rw [Option.some_bind]
  rw [show gaussJordanGo 8 5 3
      [[1, 0, 0, 0, 0, 0, -2, 0, 1],
       [0, 1, 0, 0, 0, 0, -1, -3, 1/2],
       [0, 0, 1, 0, 0, 0, 0, 0, 0],
       [0, 0, 0, 2, 0, 1, 0, 0, 0],
       [0, 0, 0, 0, 0, 1, 0, 0, 0],
       [0, 0, 0, 2, 2, 1, 0, 0, 0],
       [0, 0, 0, 0, 0, 0, 2, 4, 0],
       [0, 0, 0, 0, 2, 1, 0, 0, 0]] =
    (eliminateStep
      [[1, 0, 0, 0, 0, 0, -2, 0, 1],
       [0, 1, 0, 0, 0, 0, -1, -3, 1/2],
       [0, 0, 1, 0, 0, 0, 0, 0, 0],
       [0, 0, 0, 2, 0, 1, 0, 0, 0],
       [0, 0, 0, 0, 0, 1, 0, 0, 0],
       [0, 0, 0, 2, 2, 1, 0, 0, 0],
       [0, 0, 0, 0, 0, 0, 2, 4, 0],
       [0, 0, 0, 0, 2, 1, 0, 0, 0]] 3 8).bind
      (gaussJordanGo 8 4 4) from rfl, h3]
  rw [Option.some_bind]
  rw [show gaussJordanGo 8 4 4
      [[1, 0, 0, 0, 0, 0, -2, 0, 1],
       [0, 1, 0, 0, 0, 0, -1, -3, 1/2],
       [0, 0, 1, 0, 0, 0, 0, 0, 0],
       [0, 0, 0, 1, 0, 1/2, 0, 0, 0],
       [0, 0, 0, 0, 0, 1, 0, 0, 0],
       [0, 0, 0, 0, 2, 0, 0, 0, 0],
       [0, 0, 0, 0, 0, 0, 2, 4, 0],
       [0, 0, 0, 0, 2, 1, 0, 0, 0]] =
    (eliminateStep
      [[1, 0, 0, 0, 0, 0, -2, 0, 1],
       [0, 1, 0, 0, 0, 0, -1, -3, 1/2],
       [0, 0, 1, 0, 0, 0, 0, 0, 0],
       [0, 0, 0, 1, 0, 1/2, 0, 0, 0],
       [0, 0, 0, 0, 0, 1, 0, 0, 0],
       [0, 0, 0, 0, 2, 0, 0, 0, 0],
       [0, 0, 0, 0, 0, 0, 2, 4, 0],
       [0, 0, 0, 0, 2, 1, 0, 0, 0]] 4 8).bind
      (gaussJordanGo 8 3 5) from rfl, h4]
  rw [Option.some_bind]
  rw [show gaussJordanGo 8 3 5
      [[1, 0, 0, 0, 0, 0, -2, 0, 1],
       [0, 1, 0, 0, 0, 0, -1, -3, 1/2],
       [0, 0, 1, 0, 0, 0, 0, 0, 0],
       [0, 0, 0, 1, 0, 1/2, 0, 0, 0],
       [0, 0, 0, 0, 1, 0, 0, 0, 0],
       [0, 0, 0, 0, 0, 1, 0, 0, 0],
       [0, 0, 0, 0, 0, 0, 2, 4, 0],
       [0, 0, 0, 0, 0, 1, 0, 0, 0]] =
    (eliminateStep
      [[1, 0, 0, 0, 0, 0, -2, 0, 1],
       [0, 1, 0, 0, 0, 0, -1, -3, 1/2],
       [0, 0, 1, 0, 0, 0, 0, 0, 0],
       [0, 0, 0, 1, 0, 1/2, 0, 0, 0],
       [0, 0, 0, 0, 1, 0, 0, 0, 0],
       [0, 0, 0, 0, 0, 1, 0, 0, 0],
       [0, 0, 0, 0, 0, 0, 2, 4, 0],
       [0, 0, 0, 0, 0, 1, 0, 0, 0]] 5 8).bind
      (gaussJordanGo 8 2 6) from rfl, h5]
  rw [Option.some_bind]
  rw [show gaussJordanGo 8 2 6
      [[1, 0, 0, 0, 0, 0, -2, 0, 1],
       [0, 1, 0, 0, 0, 0, -1, -3, 1/2],
       [0, 0, 1, 0, 0, 0, 0, 0, 0],
       [0, 0, 0, 1, 0, 0, 0, 0, 0],
       [0, 0, 0, 0, 1, 0, 0, 0, 0],
       [0, 0, 0, 0, 0, 1, 0, 0, 0],
       [0, 0, 0, 0, 0, 0, 2, 4, 0],
       [0, 0, 0, 0, 0, 0, 0, 0, 0]] =
    (eliminateStep
      [[1, 0, 0, 0, 0, 0, -2, 0, 1],
       [0, 1, 0, 0, 0, 0, -1, -3, 1/2],
       [0, 0, 1, 0, 0, 0, 0, 0, 0],
       [0, 0, 0, 1, 0, 0, 0, 0, 0],
       [0, 0, 0, 0, 1, 0, 0, 0, 0],
       [0, 0, 0, 0, 0, 1, 0, 0, 0],
       [0, 0, 0, 0, 0, 0, 2, 4, 0],
       [0, 0, 0, 0, 0, 0, 0, 0, 0]] 6 8).bind
      (gaussJordanGo 8 1 7) from rfl, h6]
  rw [Option.some_bind]
  rw [show gaussJordanGo 8 1 7
      [[1, 0, 0, 0, 0, 0, 0, 4, 1],
       [0, 1, 0, 0, 0, 0, 0, -1, 1/2],
       [0, 0, 1, 0, 0, 0, 0, 0, 0],
       [0, 0, 0, 1, 0, 0, 0, 0, 0],
       [0, 0, 0, 0, 1, 0, 0, 0, 0],
       [0, 0, 0, 0, 0, 1, 0, 0, 0],
       [0, 0, 0, 0, 0, 0, 1, 2, 0],
       [0, 0, 0, 0, 0, 0, 0, 0, 0]] =
    (eliminateStep
      [[1, 0, 0, 0, 0, 0, 0, 4, 1],
       [0, 1, 0, 0, 0, 0, 0, -1, 1/2],
       [0, 0, 1, 0, 0, 0, 0, 0, 0],
       [0, 0, 0, 1, 0, 0, 0, 0, 0],
       [0, 0, 0, 0, 1, 0, 0, 0, 0],
       [0, 0, 0, 0, 0, 1, 0, 0, 0],
       [0, 0, 0, 0, 0, 0, 1, 2, 0],
       [0, 0, 0, 0, 0, 0, 0, 0, 0]] 7 8).bind
      (gaussJordanGo 8 0 8) from rfl, h7]
  rfl

/-- Augmented matrix of the ce homography system, evaluated. -/
theorem ceAugEval : augmentRows (homographySystem
      [⟨1, 1⟩, ⟨0, 0⟩, ⟨1, 0⟩, ⟨0, 1⟩]
      [⟨5, 7⟩, ⟨-2, -3⟩, ⟨-1/2, -1/2⟩, ⟨1, 2⟩]).1 (homographySystem
      [⟨1, 1⟩, ⟨0, 0⟩, ⟨1, 0⟩, ⟨0, 1⟩]
      [⟨5, 7⟩, ⟨-2, -3⟩, ⟨-1/2, -1/2⟩, ⟨1, 2⟩]).2 =
      [[1, 1, 1, 0, 0, 0, -5, -5, 5],
       [0, 0, 0, 1, 1, 1, -7, -7, 7],
       [0, 0, 1, 0, 0, 0, 0, 0, -2],
       [0, 0, 0, 0, 0, 1, 0, 0, -3],
       [1, 0, 1, 0, 0, 0, 1/2, 0, -1/2],
       [0, 0, 0, 1, 0, 1, 1/2, 0, -1/2],
       [0, 1, 1, 0, 0, 0, 0, -1, 1],
       [0, 0, 0, 0, 1, 1, 0, -2, 2]] := by
  norm_num [homographySystem, homographyRows, augmentRows, mapIdxFrom]

/-- The homography computed for the ce correspondences. -/
theorem ceHomographyEval : computeHomography
      [⟨1, 1⟩, ⟨0, 0⟩, ⟨1, 0⟩, ⟨0, 1⟩]
      [⟨5, 7⟩, ⟨-2, -3⟩, ⟨-1/2, -1/2⟩, ⟨1, 2⟩] =
      [1, 1, -2, 2, 1, -3, 1, -2] := by
  rw [computeHomography, if_neg (by norm_num)]
  simp only [solveLinearSystem]
  rw [show ((homographySystem
      [⟨1, 1⟩, ⟨0, 0⟩, ⟨1, 0⟩, ⟨0, 1⟩]
      [⟨5, 7⟩, ⟨-2, -3⟩, ⟨-1/2, -1/2⟩, ⟨1, 2⟩]).2).length = 8 from rfl, ceAugEval, ceGaussEval]
  rfl

/-- Non-degeneracy check for the ce correspondences. -/
theorem ceNonDegenerateEval : homographyNonDegenerate
      [⟨1, 1⟩, ⟨0, 0⟩, ⟨1, 0⟩, ⟨0, 1⟩]
      [⟨5, 7⟩, ⟨-2, -3⟩, ⟨-1/2, -1/2⟩, ⟨1, 2⟩] = true := by
  simp only [homographyNonDegenerate, solveSucceeds]
  rw [show ((homographySystem
      [⟨1, 1⟩, ⟨0, 0⟩, ⟨1, 0⟩, ⟨0, 1⟩]
      [⟨5, 7⟩, ⟨-2, -3⟩, ⟨-1/2, -1/2⟩, ⟨1, 2⟩]).2).length = 8 from rfl, ceAugEval, ceGaussEval]
  rfl

/-- Augmented matrix of the w homography system, evaluated. -/
theorem wAugEval : augmentRows (homographySystem
      [⟨0, 0⟩, ⟨4, 0⟩, ⟨4, 4⟩, ⟨0, 4⟩]
      [⟨0, 0⟩, ⟨4, 0⟩, ⟨4, 4⟩, ⟨0, 4⟩]).1 (homographySystem
      [⟨0, 0⟩, ⟨4, 0⟩, ⟨4, 4⟩, ⟨0, 4⟩]
      [⟨0, 0⟩, ⟨4, 0⟩, ⟨4, 4⟩, ⟨0, 4⟩]).2 =
      [[0, 0, 1, 0, 0, 0, 0, 0, 0],
       [0, 0, 0, 0, 0, 1, 0, 0, 0],
       [4, 0, 1, 0, 0, 0, -16, 0, 4],
       [0, 0, 0, 4, 0, 1, 0, 0, 0],
       [4, 4, 1, 0, 0, 0, -16, -16, 4],
       [0, 0, 0, 4, 4, 1, -16, -16, 4],
       [0, 4, 1, 0, 0, 0, 0, 0, 0],
       [0, 0, 0, 0, 4, 1, 0, -16, 4]] := by
  norm_num [homographySystem, homographyRows, augmentRows, mapIdxFrom]

/-- The homography computed for the w correspondences. -/
theorem wHomographyEval : computeHomography
      [⟨0, 0⟩, ⟨4, 0⟩, ⟨4, 4⟩, ⟨0, 4⟩]
      [⟨0, 0⟩, ⟨4, 0⟩, ⟨4, 4⟩, ⟨0, 4⟩] =
      [1, 0, 0, 0, 1, 0, 0, 0] := by
  rw [computeHomography, if_neg (by norm_num)]
  simp only [solveLinearSystem]
  rw [show ((homographySystem
      [⟨0, 0⟩, ⟨4, 0⟩, ⟨4, 4⟩, ⟨0, 4⟩]
      [⟨0, 0⟩, ⟨4, 0⟩, ⟨4, 4⟩, ⟨0, 4⟩]).2).length = 8 from rfl, wAugEval, wGaussEval]
  rfl

/-- Non-degeneracy check for the w correspondences. -/
theorem wNonDegenerateEval : homographyNonDegenerate
      [⟨0, 0⟩, ⟨4, 0⟩, ⟨4, 4⟩, ⟨0, 4⟩]
      [⟨0, 0⟩, ⟨4, 0⟩, ⟨4, 4⟩, ⟨0, 4⟩] = true := by
  simp only [homographyNonDegenerate, solveSucceeds]
  rw [show ((homographySystem
      [⟨0, 0⟩, ⟨4, 0⟩, ⟨4, 4⟩, ⟨0, 4⟩]
      [⟨0, 0⟩, ⟨4, 0⟩, ⟨4, 4⟩, ⟨0, 4⟩]).2).length = 8 from rfl, wAugEval, wGaussEval]
  rfl

/-- Augmented matrix of the c3 homography system, evaluated. -/
theorem c3AugEval : augmentRows (homographySystem
      [⟨0, 0⟩, ⟨2, 0⟩, ⟨2, 2⟩, ⟨0, 2⟩]
      [⟨0, 0⟩, ⟨2, 0⟩, ⟨3, 0⟩, ⟨1, 0⟩]).1 (homographySystem
      [⟨0, 0⟩, ⟨2, 0⟩, ⟨2, 2⟩, ⟨0, 2⟩]
      [⟨0, 0⟩, ⟨2, 0⟩, ⟨3, 0⟩, ⟨1, 0⟩]).2 =
      [[0, 0, 1, 0, 0, 0, 0, 0, 0],
       [0, 0, 0, 0, 0, 1, 0, 0, 0],
       [2, 0, 1, 0, 0, 0, -4, 0, 2],
       [0, 0, 0, 2, 0, 1, 0, 0, 0],
       [2, 2, 1, 0, 0, 0, -6, -6, 3],
       [0, 0, 0, 2, 2, 1, 0, 0, 0],
       [0, 2, 1, 0, 0, 0, 0, -2, 1],
       [0, 0, 0, 0, 2, 1, 0, 0, 0]] := by
  norm_num [homographySystem, homographyRows, augmentRows, mapIdxFrom]

/-- The homography computed for the c3 correspondences. -/
theorem c3HomographyEval : computeHomography
      [⟨0, 0⟩, ⟨2, 0⟩, ⟨2, 2⟩, ⟨0, 2⟩]
      [⟨0, 0⟩, ⟨2, 0⟩, ⟨3, 0⟩, ⟨1, 0⟩] =
      [0, 0, 0, 0, 0, 0, 0, 0] := by
  rw [computeHomography, if_neg (by norm_num)]
  simp only [solveLinearSystem]
  rw [show ((homographySystem
      [⟨0, 0⟩, ⟨2, 0⟩, ⟨2, 2⟩, ⟨0, 2⟩]
      [⟨0, 0⟩, ⟨2, 0⟩, ⟨3, 0⟩, ⟨1, 0⟩]).2).length = 8 from rfl, c3AugEval, c3GaussEval]
  rfl

/-- Non-degeneracy check for the c3 correspondences. -/
theorem c3NonDegenerateEval : homographyNonDegenerate
      [⟨0, 0⟩, ⟨2, 0⟩, ⟨2, 2⟩, ⟨0, 2⟩]
      [⟨0, 0⟩, ⟨2, 0⟩, ⟨3, 0⟩, ⟨1, 0⟩] = false := by
  simp only [homographyNonDegenerate, solveSucceeds]
  rw [show ((homographySystem
      [⟨0, 0⟩, ⟨2, 0⟩, ⟨2, 2⟩, ⟨0, 2⟩]
      [⟨0, 0⟩, ⟨2, 0⟩, ⟨3, 0⟩, ⟨1, 0⟩]).2).length = 8 from rfl, c3AugEval, c3GaussEval]
  rfl

/-- Counterexample to C1 as stated: the four correspondences below are
non-degenerate in the claim's sense (the 8×8 system eliminates with no
zero pivot), yet the computed homography has denominator zero at the
first source point (1, 1), so `applyHomography` returns {0, 0} instead of
the destination (5, 7). -/
theorem computeHomography_roundtrip_fails :
    homographyNonDegenerate [⟨1, 1⟩, ⟨0, 0⟩, ⟨1, 0⟩, ⟨0, 1⟩]
        [⟨5, 7⟩, ⟨-2, -3⟩, ⟨-1/2, -1/2⟩, ⟨1, 2⟩] = true ∧
    applyHomography
        (computeHomography [⟨1, 1⟩, ⟨0, 0⟩, ⟨1, 0⟩, ⟨0, 1⟩]
          [⟨5, 7⟩, ⟨-2, -3⟩, ⟨-1/2, -1/2⟩, ⟨1, 2⟩]) ⟨1, 1⟩ ≠ ⟨5, 7⟩ := by
  refine ⟨ceNonDegenerateEval, ?_⟩
  rw [ceHomographyEval]
  have h1 : applyHomography [1, 1, -2, 2, 1, -3, 1, -2] ⟨1, 1⟩ = ⟨0, 0⟩ := by
    norm_num [applyHomography]
  rw [h1]
  intro hc
  rw [Coordinate.mk.injEq] at hc
  exact absurd hc.1 (by norm_num)

/-- Witness for the amended C1 at the identity correspondence on the
4-square: non-degenerate, nonzero denominator at the first point, and the
round-trip holds there. -/
theorem computeHomography_roundtrip_witness :
    homographyNonDegenerate [⟨0, 0⟩, ⟨4, 0⟩, ⟨4, 4⟩, ⟨0, 4⟩]
        [⟨0, 0⟩, ⟨4, 0⟩, ⟨4, 4⟩, ⟨0, 4⟩] = true ∧
    homographyDenomAt
        (computeHomography [⟨0, 0⟩, ⟨4, 0⟩, ⟨4, 4⟩, ⟨0, 4⟩]
          [⟨0, 0⟩, ⟨4, 0⟩, ⟨4, 4⟩, ⟨0, 4⟩]) ⟨0, 0⟩ ≠ 0 ∧
    applyHomography
        (computeHomography [⟨0, 0⟩, ⟨4, 0⟩, ⟨4, 4⟩, ⟨0, 4⟩]
          [⟨0, 0⟩, ⟨4, 0⟩, ⟨4, 4⟩, ⟨0, 4⟩]) ⟨0, 0⟩ = ⟨0, 0⟩ := by
  have hden : homographyDenomAt
      (computeHomography [⟨0, 0⟩, ⟨4, 0⟩, ⟨4, 4⟩, ⟨0, 4⟩]
        [⟨0, 0⟩, ⟨4, 0⟩, ⟨4, 4⟩, ⟨0, 4⟩]) ⟨0, 0⟩ ≠ 0 := by
    rw [wHomographyEval]
    norm_num [homographyDenomAt]
  refine ⟨wNonDegenerateEval, hden, ?_⟩
  exact computeHomography_roundtrip ⟨0, 0⟩ ⟨4, 0⟩ ⟨4, 4⟩ ⟨0, 4⟩ ⟨0, 0⟩ ⟨4, 0⟩ ⟨4, 4⟩ ⟨0, 4⟩
    wNonDegenerateEval (0 : Fin 4) hden

/-! ## C3: degenerate warp falls through the finiteness check -/

theorem applyHomography_zero (p : Coordinate) :
    applyHomography [0, 0, 0, 0, 0, 0, 0, 0] p = ⟨0, 0⟩ := by
  norm_num [applyHomography]

/-- C3 at the failing input: dragging the warp corners onto the collinear
configuration (0,0), (2,0), (3,0), (1,0) makes the homography system
singular, so `computeHomography` returns the all-zero vector; all eight
zeros are finite, `isValidHomography` accepts them, and the triangle path
runs with every destination point mapped to (0, 0).  The result is not the
whole-image-stretch fallback, and every drawn triangle is clipped to a
single point, i.e. nothing is painted. -/
theorem getWarpedCanvas_collinear_blank :
    isStretchFallback
      (getWarpedCanvas 2 2 ⟨⟨0, 0⟩, ⟨2, 0⟩, ⟨3, 0⟩, ⟨1, 0⟩⟩ WarpQuality.final) = false ∧
    drawPlanPaintsNothing
      (getWarpedCanvas 2 2 ⟨⟨0, 0⟩, ⟨2, 0⟩, ⟨3, 0⟩, ⟨1, 0⟩⟩ WarpQuality.final) = true := by
  have hplan : getWarpedCanvas 2 2 ⟨⟨0, 0⟩, ⟨2, 0⟩, ⟨3, 0⟩, ⟨1, 0⟩⟩ WarpQuality.final =
      WarpDrawPlan.triangles (warpGridTriangles 2 2 [0, 0, 0, 0, 0, 0, 0, 0] 4) := by
    have hseg : getWarpSegments (2 : ℚ) (2 : ℚ) WarpQuality.final = 4 := by
      simp only [getWarpSegments]
      rw [if_neg (by decide)]
      norm_num
      rw [Int.ceil_le]
      norm_num
    norm_num [getWarpedCanvas, min_def, max_def, c3HomographyEval, isValidHomography, hseg]
  rw [hplan]
  constructor
  · rfl
  · norm_num [drawPlanPaintsNothing, warpGridTriangles, applyHomography_zero,
      List.range_succ, srcTriangleDegenerate, dstTriangleIsPoint]

end InvokeAI
